import Mathlib

/-! ViSP: frame grabber driver, display dispatcher and point feature

A shallow embedding of three components of the ViSP toolkit:

* `vpIcCompGrabber` (src/ViSP/src/framegrabber-device/IC-Comp/vpIcCompGrabber.cpp),
* `vpDisplay` (src/ViSP/src/video-device/vpDisplay.cpp),
* `vpFeaturePoint` (src/src/visual-feature/vpFeaturePoint.h, declarations only).

C++ exceptions become `Except`, a `NULL` pointer becomes `Option.none`, reference
arguments become extra results, and `unsigned int` values are natural numbers.
-/

namespace ViSP

/-! ## Images -/

/-- Pixel of a colour image (`vpRGBa`): the four bytes R, G, B, A. -/
structure vpRGBa where
  R : Nat
  G : Nat
  B : Nat
  A : Nat
deriving DecidableEq

/-- Image container `vpImage<Type>`: its size, its row-major bitmap and the
optional pointer `display` to a display backend (`none` is `NULL`).
The class itself is declared outside the sources at hand; only the members the
embedded code touches are kept. -/
structure vpImage (α δ : Type) where
  height : Nat
  width : Nat
  bitmap : Nat → α
  display : Option δ

namespace vpImage

variable {α δ : Type}

/-- Accessor `I.getHeight()`. -/
def getHeight (I : vpImage α δ) : Nat := I.height

/-- Accessor `I.getWidth()`. -/
def getWidth (I : vpImage α δ) : Nat := I.width

/-- Pixel access `I[i][j]` (read): row `i`, column `j` of the row-major bitmap. -/
def get (I : vpImage α δ) (i j : Nat) : α := I.bitmap (i * I.width + j)

/-- Pixel access `I[i][j] = p` (write). -/
def set (I : vpImage α δ) (i j : Nat) (p : α) : vpImage α δ :=
  { I with bitmap := Function.update I.bitmap (i * I.width + j) p }

/-- Modelled from the spec: `vpImage::resize` is not part of the sources; the
callers use it to give the destination image the size `(h, w)` ("resizes the
destination buffer"). `fresh` stands for whatever the bitmap holds afterwards. -/
def resize (fresh : Nat → α) (h w : Nat) (I : vpImage α δ) : vpImage α δ :=
  { height := h, width := w, bitmap := fresh, display := I.display }

end vpImage

/-! ## The vendor handle `ICcomp2x` -/

/-- One result of the vendor call `Acquire(field, framebuffer)`: the field it
reports through its reference argument and the raw buffer it returns, as bytes
indexed by offset. -/
structure Frame where
  field : Nat
  bitmap : Nat → Nat

/-- Modelled from the spec: the vendor class `ICcomp2x` is not part of the
sources; the spec lists its operations (`setCamera(input)`, `setDecimation(n)`,
`setBuffers(n)`, `setDepth(bits)`, `setChromaOrder(mode)`, `init()`,
`getWidth()/getHeight()`, `acquire(outField) -> rawBuffer`). A handle records
the value last given to each setter and the number of acquisitions performed
so far. -/
structure ICcomp2x where
  camera : Nat
  decimation : Nat
  nbufs : Nat
  depth : Nat
  cbCrOrder : Nat
  ready : Bool
  acquired : Nat
deriving DecidableEq

/-- Constant `ICCOMP_NORMAL_ORDER` of the vendor library (its value is not used). -/
def ICCOMP_NORMAL_ORDER : Nat := 0

/-- The parts of the vendor library and of the image container that the driver
calls but that are not part of the sources: the state of a handle made by
`new ICcomp2x`, what `Init()` does to a handle, what `GetWidth()` and
`GetHeight()` report, the frames the board delivers (the `n`-th call of
`Acquire` returns `frames n`), the colour conversion `ConvertYCbCrToRGBA`
(raw buffer, rows, columns to RGBA bytes) and the contents of freshly allocated
image bitmaps. -/
structure Platform where
  fresh : ICcomp2x
  Init : ICcomp2x → ICcomp2x
  GetWidth : ICcomp2x → Nat
  GetHeight : ICcomp2x → Nat
  frames : Nat → Frame
  ConvertYCbCrToRGBA : (Nat → Nat) → Nat → Nat → (Nat → Nat)
  freshRGBa : Nat → vpRGBa
  freshGrey : Nat → Nat

namespace ICcomp2x

/-- Vendor call `SetCamera(n)`. -/
def SetCamera (fg : ICcomp2x) (n : Nat) : ICcomp2x := { fg with camera := n }

/-- Vendor call `SetDecimation(n)`. -/
def SetDecimation (fg : ICcomp2x) (n : Nat) : ICcomp2x := { fg with decimation := n }

/-- Vendor call `GetDecimation()`. -/
def GetDecimation (fg : ICcomp2x) : Nat := fg.decimation

/-- Vendor call `SetNBufs(n)`. -/
def SetNBufs (fg : ICcomp2x) (n : Nat) : ICcomp2x := { fg with nbufs := n }

/-- Vendor call `SetDepth(n)`. -/
def SetDepth (fg : ICcomp2x) (n : Nat) : ICcomp2x := { fg with depth := n }

/-- Vendor call `SetCbCrOrder(n)`. -/
def SetCbCrOrder (fg : ICcomp2x) (n : Nat) : ICcomp2x := { fg with cbCrOrder := n }

/-- Vendor call `Acquire(field, framebuffer)`: delivers the next frame of the
board and counts the acquisition. -/
def Acquire (P : Platform) (fg : ICcomp2x) : Frame × ICcomp2x :=
  (P.frames fg.acquired, { fg with acquired := fg.acquired + 1 })

end ICcomp2x

/-! ## The driver `vpIcCompGrabber` -/

/-- Error codes of `vpFrameGrabberException` used by the driver. -/
inductive vpFrameGrabberException where
  | settingError
  | initializationError
  | otherError
deriving DecidableEq

/-- How a driver call can end without a result: a thrown
`vpFrameGrabberException`, or a member call through `framegrabber == NULL`
(undefined behaviour in the source, kept apart from the exceptions). -/
inductive Fault where
  | thrown (code : vpFrameGrabberException)
  | nullHandle
deriving DecidableEq

/-- Enumeration `vpIcCompFramerateType`. -/
inductive vpIcCompFramerateType where
  | framerate_50fps
  | framerate_25fps
deriving DecidableEq

/-- Members of `vpIcCompGrabber` (with those inherited from `vpFrameGrabber`):
`init`, the handle pointer `framegrabber` (`none` is `NULL`), `input`, `scale`,
`framerate`, `field`, `ncols`, `nrows`. -/
structure vpIcCompGrabber where
  init : Bool
  framegrabber : Option ICcomp2x
  input : Nat
  scale : Nat
  framerate : vpIcCompFramerateType
  field : Nat
  ncols : Nat
  nrows : Nat

namespace vpIcCompGrabber

/-- Constant `vpIcCompGrabber::DEFAULT_INPUT`. -/
def DEFAULT_INPUT : Nat := 2

/-- Constant `vpIcCompGrabber::DEFAULT_SCALE`. -/
def DEFAULT_SCALE : Nat := 2

/-- Method `setInput(unsigned int _input)`. -/
def setInput (d : vpIcCompGrabber) (_input : Nat) : Except Fault vpIcCompGrabber :=
  if _input > 3 then
    .error (.thrown .settingError)
  else
    let d1 := { d with input := _input }
    match d1.framegrabber with
    | none => .error .nullHandle
    | some fg => .ok { d1 with framegrabber := some (fg.SetCamera _input) }

/-- Method `setScale(unsigned int scale)`. -/
def setScale (d : vpIcCompGrabber) (scale : Nat) : Except Fault vpIcCompGrabber :=
  if scale < 1 ∨ scale > 16 then
    .error (.thrown .settingError)
  else
    let d1 := { d with scale := scale }
    match d1.framegrabber with
    | none => .error .nullHandle
    | some fg => .ok { d1 with framegrabber := some (fg.SetDecimation scale) }

/-- Method `setFramerate(framerate)`. -/
def setFramerate (d : vpIcCompGrabber) (framerate : vpIcCompFramerateType) :
    vpIcCompGrabber :=
  { d with framerate := framerate }

/-- Method `getFramerate()`. -/
def getFramerate (d : vpIcCompGrabber) : vpIcCompFramerateType := d.framerate

/-- Method `getField()`: the member `field` converted to `bool`. -/
def getField (d : vpIcCompGrabber) : Bool := d.field != 0

/-- Constructor `vpIcCompGrabber(unsigned int _input, unsigned int _scale)`.
`raw` stands for the members before the constructor body runs. -/
def mk2 (P : Platform) (raw : vpIcCompGrabber) (_input _scale : Nat) :
    Except Fault vpIcCompGrabber := do
  let d0 := { raw with init := false }
  let d1 := { d0 with framegrabber := some P.fresh }
  let d2 ← setInput d1 _input
  let d3 ← setScale d2 _scale
  pure (setFramerate d3 .framerate_25fps)

/-- Default constructor `vpIcCompGrabber()`. -/
def mk0 (P : Platform) (raw : vpIcCompGrabber) : Except Fault vpIcCompGrabber := do
  let d0 := { raw with init := false }
  let d1 := { d0 with framegrabber := some P.fresh }
  let d2 ← setInput d1 DEFAULT_INPUT
  let d3 ← setScale d2 DEFAULT_SCALE
  pure (setFramerate d3 .framerate_25fps)

/-- Method `close()`. -/
def close (d : vpIcCompGrabber) : vpIcCompGrabber :=
  match d.framegrabber with
  | some _ => { d with framegrabber := none }
  | none => d

/-- Method `open(vpImage<unsigned char> &I)`. -/
def openGrey {δ : Type} (P : Platform) (d : vpIcCompGrabber) (I : vpImage Nat δ) :
    Except Fault (vpIcCompGrabber × vpImage Nat δ) :=
  match d.framegrabber with
  | none => .error .nullHandle
  | some fg =>
    let fg1 := if fg.GetDecimation = 1 then fg.SetNBufs 1 else fg.SetNBufs 2
    let fg2 := fg1.SetDepth 8
    let fg3 := fg2.SetCbCrOrder ICCOMP_NORMAL_ORDER
    let fg4 := P.Init fg3
    let d1 := { d with framegrabber := some fg4 }
    let d2 := { d1 with ncols := P.GetWidth fg4 }
    let d3 := { d2 with nrows := P.GetHeight fg4 }
    let I1 := I.resize P.freshGrey d3.nrows d3.ncols
    .ok ({ d3 with init := true }, I1)

/-- Method `open(vpImage<vpRGBa> &I)`. -/
def openRGBa {δ : Type} (P : Platform) (d : vpIcCompGrabber) (I : vpImage vpRGBa δ) :
    Except Fault (vpIcCompGrabber × vpImage vpRGBa δ) :=
  let d0 :=
    match d.framegrabber with
    | some _ => { d with framegrabber := some P.fresh }
    | none => d
  match d0.framegrabber with
  | none => .error .nullHandle
  | some fg =>
    let fg1 := fg.SetDecimation 1
    let fg2 := fg1.SetNBufs 1
    let fg3 := fg2.SetDepth 16
    let fg4 := fg3.SetCbCrOrder ICCOMP_NORMAL_ORDER
    let fg5 := P.Init fg4
    let d1 := { d0 with framegrabber := some fg5 }
    let d2 := { d1 with ncols := P.GetWidth fg5 / d1.scale }
    let d3 := { d2 with nrows := P.GetHeight fg5 / d2.scale }
    let I1 := I.resize P.freshRGBa d3.nrows d3.ncols
    .ok ({ d3 with init := true }, I1)

/-- Colour conversion written straight into the image, the branch `scale==1` of
the colour `acquire`: `ConvertYCbCrToRGBA(bitmap, (unsigned char *)I.bitmap,
nrows, ncols)` fills the bitmap bytewise, and a `vpRGBa` holds its bytes in the
order R, G, B, A. -/
def convertInto {δ : Type} (rgba : Nat → Nat) (nrows ncols : Nat)
    (I : vpImage vpRGBa δ) : vpImage vpRGBa δ :=
  { I with bitmap := fun k =>
      if k < nrows * ncols then
        { R := rgba (4 * k), G := rgba (4 * k + 1), B := rgba (4 * k + 2),
          A := rgba (4 * k + 3) }
      else I.bitmap k }

/-- Inner loop `for (int j=0 ; j < I.getWidth() ; j++)` of the colour `acquire`:
`n` iterations remain, `j` is the column, `ptr` the byte offset reached in
`bitmaprgba`. Returns the offset and the image after the loop. -/
def decimateRow {δ : Type} (bitmaprgba : Nat → Nat) (scale i : Nat) :
    Nat → Nat → Nat → vpImage vpRGBa δ → Nat × vpImage vpRGBa δ
  | 0, _, ptr, I => (ptr, I)
  | n + 1, j, ptr, I =>
    let I1 := I.set i j { I.get i j with B := bitmaprgba ptr }
    let I2 := I1.set i j { I1.get i j with G := bitmaprgba (ptr + 1) }
    let I3 := I2.set i j { I2.get i j with R := bitmaprgba (ptr + 2) }
    decimateRow bitmaprgba scale i n (j + 1) (ptr + 4 * scale) I3

/-- Outer loop `for (int i=0 ; i < I.getHeight() ; i++)` of the colour `acquire`:
`m` iterations remain, `i` is the row, `W` is `framegrabber->GetWidth()`. -/
def decimateRows {δ : Type} (bitmaprgba : Nat → Nat) (scale W : Nat) :
    Nat → Nat → Nat → vpImage vpRGBa δ → Nat × vpImage vpRGBa δ
  | 0, _, ptr, I => (ptr, I)
  | m + 1, i, ptr, I =>
    let r := decimateRow bitmaprgba scale i I.getWidth 0 ptr I
    decimateRows bitmaprgba scale W m (i + 1) (r.1 + W * 4 * 1 * (scale - 1)) r.2

/-- The decimation of the colour `acquire` (the `else` branch, after the
conversion): both loops, started with `ptr = bitmaprgba`. -/
def decimate {δ : Type} (bitmaprgba : Nat → Nat) (scale W : Nat)
    (I : vpImage vpRGBa δ) : vpImage vpRGBa δ :=
  (decimateRows bitmaprgba scale W I.getHeight 0 0 I).2

/-- The inner loop of the colour `acquire` once more, now also keeping the list
of the offsets of `bitmaprgba` it reads: each turn reads `*(ptr )`, `*(ptr +1 )`
and `*(ptr +2)`, in this order. -/
def decimateRowLog {δ : Type} (bitmaprgba : Nat → Nat) (scale i : Nat) :
    Nat → Nat → Nat → vpImage vpRGBa δ → List Nat → Nat × vpImage vpRGBa δ × List Nat
  | 0, _, ptr, I, log => (ptr, I, log)
  | n + 1, j, ptr, I, log =>
    let I1 := I.set i j { I.get i j with B := bitmaprgba ptr }
    let I2 := I1.set i j { I1.get i j with G := bitmaprgba (ptr + 1) }
    let I3 := I2.set i j { I2.get i j with R := bitmaprgba (ptr + 2) }
    decimateRowLog bitmaprgba scale i n (j + 1) (ptr + 4 * scale) I3
      (log ++ [ptr, ptr + 1, ptr + 2])

/-- The outer loop of the colour `acquire` with the list of the offsets read. -/
def decimateRowsLog {δ : Type} (bitmaprgba : Nat → Nat) (scale W : Nat) :
    Nat → Nat → Nat → vpImage vpRGBa δ → List Nat → Nat × vpImage vpRGBa δ × List Nat
  | 0, _, ptr, I, log => (ptr, I, log)
  | m + 1, i, ptr, I, log =>
    let r := decimateRowLog bitmaprgba scale i I.getWidth 0 ptr I log
    decimateRowsLog bitmaprgba scale W m (i + 1) (r.1 + W * 4 * 1 * (scale - 1)) r.2.1 r.2.2

/-- The decimation of the colour `acquire` with the list of the offsets of
`bitmaprgba` it reads, in the order of the reads. -/
def decimateLog {δ : Type} (bitmaprgba : Nat → Nat) (scale W : Nat)
    (I : vpImage vpRGBa δ) : vpImage vpRGBa δ × List Nat :=
  (decimateRowsLog bitmaprgba scale W I.getHeight 0 0 I []).2

/-- Method `acquire(vpImage<vpRGBa> &I)`. The setters keep `scale` within
`[1,16]`, so `scale - 1` is the same for natural numbers and for `unsigned int`. -/
def acquireRGBa {δ : Type} (P : Platform) (d : vpIcCompGrabber) (I : vpImage vpRGBa δ) :
    Except Fault (vpIcCompGrabber × vpImage vpRGBa δ) :=
  match d.framegrabber with
  | none => .error (.thrown .initializationError)
  | some fg =>
    let r := fg.Acquire P
    let bitmap := r.1.bitmap
    let d1 := { d with field := r.1.field, framegrabber := some r.2 }
    let I1 :=
      if I.getWidth ≠ d1.ncols ∨ I.getHeight ≠ d1.nrows then
        I.resize P.freshRGBa d1.nrows d1.ncols
      else I
    if d1.scale = 1 then
      .ok (d1, convertInto (P.ConvertYCbCrToRGBA bitmap d1.nrows d1.ncols)
                 d1.nrows d1.ncols I1)
    else
      let bitmaprgba := P.ConvertYCbCrToRGBA bitmap (P.GetHeight r.2) (P.GetWidth r.2)
      .ok (d1, decimate bitmaprgba d1.scale (P.GetWidth r.2) I1)

/-- Loop `while (field == 0) bitmap = framegrabber->Acquire(field,framebuffer)`
of the grey `acquire`, run for at most `fuel` further acquisitions: `none` when
the loop is still running after them. -/
def refetch (P : Platform) : Nat → Frame → ICcomp2x → Option (Frame × ICcomp2x)
  | fuel, fr, fg =>
    if fr.field ≠ 0 then some (fr, fg)
    else
      match fuel with
      | 0 => none
      | fuel + 1 => refetch P fuel (fg.Acquire P).1 (fg.Acquire P).2

/-- Method `acquire(vpImage<unsigned char> &I)`, with `fuel` bounding the number
of repeated acquisitions of its loop; `none` when the loop has not ended. -/
def acquireGrey {δ : Type} (P : Platform) (fuel : Nat) (d : vpIcCompGrabber)
    (I : vpImage Nat δ) : Option (Except Fault (vpIcCompGrabber × vpImage Nat δ)) :=
  match d.framegrabber with
  | none => some (.error (.thrown .initializationError))
  | some fg =>
    let got : Option (Frame × ICcomp2x) :=
      match d.framerate with
      | .framerate_25fps =>
        let r := fg.Acquire P
        if r.2.GetDecimation ≠ 1 then refetch P fuel r.1 r.2 else some r
      | .framerate_50fps => some (fg.Acquire P)
    match got with
    | none => none
    | some r =>
      let d1 := { d with field := r.1.field, framegrabber := some r.2 }
      let I1 :=
        if I.getWidth ≠ d1.ncols ∨ I.getHeight ≠ d1.nrows then
          I.resize P.freshGrey d1.nrows d1.ncols
        else I
      some (.ok (d1, { I1 with bitmap := fun k =>
        if k < d1.nrows * d1.ncols then r.1.bitmap k else I1.bitmap k }))

/-- Method `setInput(unsigned int _input)` once more, now with the members it
leaves behind in every case: the members after the call, and how the call ended
(`none` for a normal return). -/
def setInputRun (d : vpIcCompGrabber) (_input : Nat) : vpIcCompGrabber × Option Fault :=
  if _input > 3 then
    (d, some (.thrown .settingError))
  else
    let d1 := { d with input := _input }
    match d1.framegrabber with
    | none => (d1, some .nullHandle)
    | some fg => ({ d1 with framegrabber := some (fg.SetCamera _input) }, none)

/-- Method `setScale(unsigned int scale)` once more, with the members it leaves
behind in every case and how the call ended (`none` for a normal return). -/
def setScaleRun (d : vpIcCompGrabber) (scale : Nat) : vpIcCompGrabber × Option Fault :=
  if scale < 1 ∨ scale > 16 then
    (d, some (.thrown .settingError))
  else
    let d1 := { d with scale := scale }
    match d1.framegrabber with
    | none => (d1, some .nullHandle)
    | some fg => ({ d1 with framegrabber := some (fg.SetDecimation scale) }, none)

/-- Constructor `vpIcCompGrabber(vpImage<unsigned char> &I, unsigned int _input,
unsigned int _scale)`. -/
def mkGrey {δ : Type} (P : Platform) (raw : vpIcCompGrabber) (I : vpImage Nat δ)
    (_input _scale : Nat) : Except Fault (vpIcCompGrabber × vpImage Nat δ) := do
  let d1 := { raw with framegrabber := some P.fresh }
  let d2 ← setInput d1 _input
  let d3 ← setScale d2 _scale
  let d4 := setFramerate d3 .framerate_25fps
  let d5 := { d4 with init := false }
  openGrey P d5 I

/-- Constructor `vpIcCompGrabber(vpImage<vpRGBa> &I, unsigned int _input,
unsigned int _scale)`. -/
def mkRGBa {δ : Type} (P : Platform) (raw : vpIcCompGrabber) (I : vpImage vpRGBa δ)
    (_input _scale : Nat) : Except Fault (vpIcCompGrabber × vpImage vpRGBa δ) := do
  let d1 := { raw with framegrabber := some P.fresh }
  let d2 ← setInput d1 _input
  let d3 ← setScale d2 _scale
  let d4 := setFramerate d3 .framerate_25fps
  openRGBa P d4 I

/-- A call of a public method of the driver, made by a program that uses it. -/
inductive Call (δ : Type) where
  | setInput (_input : Nat)
  | setScale (scale : Nat)
  | setFramerate (framerate : vpIcCompFramerateType)
  | getFramerate
  | getField
  | openGrey (I : vpImage Nat δ)
  | openRGBa (I : vpImage vpRGBa δ)
  | acquireGrey (fuel : Nat) (I : vpImage Nat δ)
  | acquireRGBa (I : vpImage vpRGBa δ)
  | close

/-- The members of the driver after one call, for a program that goes on after
the call, also when the call threw an exception and the program caught it;
`none` when nothing comes after the call (a call through the `NULL` handle, or a
grey `acquire` that is still in its loop). The setters leave what `setInputRun`
and `setScaleRun` say; in both `acquire` methods the `throw` comes before any
assignment to a member. -/
def step {δ : Type} (P : Platform) (d : vpIcCompGrabber) : Call δ → Option vpIcCompGrabber
  | .setInput _input =>
    match setInputRun d _input with
    | (_, some .nullHandle) => none
    | (d1, _) => some d1
  | .setScale scale =>
    match setScaleRun d scale with
    | (_, some .nullHandle) => none
    | (d1, _) => some d1
  | .setFramerate framerate => some (setFramerate d framerate)
  | .getFramerate => some d
  | .getField => some d
  | .openGrey I =>
    match openGrey P d I with
    | .ok r => some r.1
    | .error _ => none
  | .openRGBa I =>
    match openRGBa P d I with
    | .ok r => some r.1
    | .error _ => none
  | .acquireGrey fuel I =>
    match acquireGrey P fuel d I with
    | some (.ok r) => some r.1
    | some (.error (.thrown _)) => some d
    | some (.error .nullHandle) => none
    | none => none
  | .acquireRGBa I =>
    match acquireRGBa P d I with
    | .ok r => some r.1
    | .error (.thrown _) => some d
    | .error .nullHandle => none
  | .close => some (close d)

/-- The members of the driver after a sequence of calls, `none` when one of
them has nothing after it. -/
def run {δ : Type} (P : Platform) : vpIcCompGrabber → List (Call δ) → Option vpIcCompGrabber
  | d, [] => some d
  | d, c :: cs =>
    match step P d c with
    | none => none
    | some d1 => run P d1 cs

end vpIcCompGrabber

/-! ## The display dispatcher `vpDisplay` -/

/-- Enumeration `vpColor::vpColorType`, by the number of its enumerator. -/
abbrev vpColorType := Nat

/-- Enumeration `vpMouseButton::vpMouseButtonType`, by the number of its enumerator. -/
abbrev vpMouseButtonType := Nat

/-- Class `vpRect` (declared outside the sources at hand); the dispatcher only
hands it on to the backend. -/
structure vpRect where
  left : Int
  top : Int
  width : Int
  height : Int
deriving DecidableEq

/-- An exception in flight in the dispatcher: the `vpDisplayException` with code
`notInitializedError`, the only one the dispatcher creates, or any other
exception object `e`. -/
inductive Thrown (ε : Type) where
  | notInitializedError
  | other (e : ε)
deriving DecidableEq

/-- What a backend `getClick(i, j, blocking)` leaves: its return value and the
contents of its two reference arguments (first `i`, the row, then `j`, the column). -/
structure Click where
  ret : Bool
  i : Nat
  j : Nat
deriving DecidableEq

/-- What a backend `getClick(i, j, button, blocking)` or `getClickUp(...)`
leaves: return value and the three reference arguments. -/
structure ClickButton where
  ret : Bool
  i : Nat
  j : Nat
  button : vpMouseButtonType
deriving DecidableEq

/-- What `getClick_uv(I, u, v, blocking)` leaves: return value and the contents
of `u` and `v`. -/
structure ClickUV where
  ret : Bool
  u : Nat
  v : Nat
deriving DecidableEq

/-- What `getClick_uv(I, u, v, button, blocking)` or `getClickUp_uv(...)` leaves. -/
structure ClickButtonUV where
  ret : Bool
  u : Nat
  v : Nat
  button : vpMouseButtonType
deriving DecidableEq

/-- The virtual members of a display backend (a class derived from `vpDisplay`)
that the dispatcher calls through `I.display`. `σ` is the state of the backend
object; each member may throw. -/
structure Backend (σ ε : Type) where
  flushTitle : String → σ → Except (Thrown ε) σ
  displayImageGrey : vpImage Nat σ → σ → Except (Thrown ε) σ
  displayImageRGBa : vpImage vpRGBa σ → σ → Except (Thrown ε) σ
  getImage : vpImage vpRGBa σ → σ → Except (Thrown ε) (vpImage vpRGBa σ × σ)
  displayPoint : Int → Int → vpColorType → σ → Except (Thrown ε) σ
  displayCross : Int → Int → Nat → vpColorType → σ → Except (Thrown ε) σ
  displayCrossLarge : Int → Int → Nat → vpColorType → σ → Except (Thrown ε) σ
  displayCircle : Int → Int → Nat → vpColorType → σ → Except (Thrown ε) σ
  displayLine : Int → Int → Int → Int → vpColorType → Nat → σ → Except (Thrown ε) σ
  displayDotLine : Int → Int → Int → Int → vpColorType → Nat → σ → Except (Thrown ε) σ
  displayArrow : Int → Int → Int → Int → vpColorType → Nat → Nat → σ →
    Except (Thrown ε) σ
  displayRectangle : Int → Int → Nat → Nat → vpColorType → Bool → Nat → σ →
    Except (Thrown ε) σ
  displayRectangleRect : vpRect → vpColorType → Bool → Nat → σ → Except (Thrown ε) σ
  displayCharString : Int → Int → String → vpColorType → σ → Except (Thrown ε) σ
  flushDisplay : σ → Except (Thrown ε) σ
  closeDisplay : σ → Except (Thrown ε) σ
  getClick : Nat → Nat → Bool → σ → Except (Thrown ε) (Click × σ)
  getClickButton : Nat → Nat → vpMouseButtonType → Bool → σ →
    Except (Thrown ε) (ClickButton × σ)
  getClickWait : Bool → σ → Except (Thrown ε) (Bool × σ)
  getClickUp : Nat → Nat → vpMouseButtonType → Bool → σ →
    Except (Thrown ε) (ClickButton × σ)

namespace vpDisplay

variable {α σ ε : Type}

/-- The handler `catch ( ... ) { vpERROR_TRACE ( "Error caught" ) ; throw ; }`
around every body of the dispatcher: whatever was thrown is thrown again. -/
def rethrow {β : Type} (body : Except (Thrown ε) β) : Except (Thrown ε) β :=
  match body with
  | .ok b => .ok b
  | .error e => .error e

/-- The image `I` once the backend object behind `I.display` has state `s`. -/
def attach (I : vpImage α σ) (s : σ) : vpImage α σ := { I with display := some s }

/-- Calls `displayTitle(I, windowtitle)`, for both pixel types. -/
def displayTitle (D : Backend σ ε) (I : vpImage α σ) (windowtitle : String) :
    Except (Thrown ε) (vpImage α σ) :=
  rethrow (match I.display with
    | some s => (D.flushTitle windowtitle s).map (attach I)
    | none => .ok I)

/-- Call `display(const vpImage<unsigned char> &I)`. -/
def displayGrey (D : Backend σ ε) (I : vpImage Nat σ) :
    Except (Thrown ε) (vpImage Nat σ) :=
  rethrow (match I.display with
    | some s => (D.displayImageGrey I s).map (attach I)
    | none => .ok I)

/-- Call `display(const vpImage<vpRGBa> &I)`. -/
def displayRGBa (D : Backend σ ε) (I : vpImage vpRGBa σ) :
    Except (Thrown ε) (vpImage vpRGBa σ) :=
  rethrow (match I.display with
    | some s => (D.displayImageRGBa I s).map (attach I)
    | none => .error .notInitializedError)

/-- Calls `getImage(Isrc, Idest)`, for both pixel types of `Isrc`: the result is
`Idest` and `Isrc` after the call. -/
def getImage (D : Backend σ ε) (Isrc : vpImage α σ) (Idest : vpImage vpRGBa σ) :
    Except (Thrown ε) (vpImage vpRGBa σ × vpImage α σ) :=
  rethrow (match Isrc.display with
    | some s => (D.getImage Idest s).map (fun r => (r.1, attach Isrc r.2))
    | none => .error .notInitializedError)

/-- Calls `displayPoint(I, i, j, col)`, for both pixel types. -/
def displayPoint (D : Backend σ ε) (I : vpImage α σ) (i j : Int) (col : vpColorType) :
    Except (Thrown ε) (vpImage α σ) :=
  rethrow (match I.display with
    | some s => (D.displayPoint i j col s).map (attach I)
    | none => .ok I)

/-- Calls `displayCross(I, i, j, size, col)`, for both pixel types. -/
def displayCross (D : Backend σ ε) (I : vpImage α σ) (i j : Int) (size : Nat)
    (col : vpColorType) : Except (Thrown ε) (vpImage α σ) :=
  rethrow (match I.display with
    | some s => (D.displayCross i j size col s).map (attach I)
    | none => .ok I)

/-- Calls `displayCrossLarge(I, i, j, size, col)`, for both pixel types. -/
def displayCrossLarge (D : Backend σ ε) (I : vpImage α σ) (i j : Int) (size : Nat)
    (col : vpColorType) : Except (Thrown ε) (vpImage α σ) :=
  rethrow (match I.display with
    | some s => (D.displayCrossLarge i j size col s).map (attach I)
    | none => .ok I)

/-- Calls `displayCircle(I, i, j, r, col)`, for both pixel types. -/
def displayCircle (D : Backend σ ε) (I : vpImage α σ) (i j : Int) (r : Nat)
    (col : vpColorType) : Except (Thrown ε) (vpImage α σ) :=
  rethrow (match I.display with
    | some s => (D.displayCircle i j r col s).map (attach I)
    | none => .ok I)

/-- Calls `displayLine(I, i1, j1, i2, j2, col, e)`, for both pixel types. -/
def displayLine (D : Backend σ ε) (I : vpImage α σ) (i1 j1 i2 j2 : Int)
    (col : vpColorType) (e : Nat) : Except (Thrown ε) (vpImage α σ) :=
  rethrow (match I.display with
    | some s => (D.displayLine i1 j1 i2 j2 col e s).map (attach I)
    | none => .ok I)

/-- Calls `displayDotLine(I, i1, j1, i2, j2, col, e2)`, for both pixel types. -/
def displayDotLine (D : Backend σ ε) (I : vpImage α σ) (i1 j1 i2 j2 : Int)
    (col : vpColorType) (e2 : Nat) : Except (Thrown ε) (vpImage α σ) :=
  rethrow (match I.display with
    | some s => (D.displayDotLine i1 j1 i2 j2 col e2 s).map (attach I)
    | none => .ok I)

/-- Calls `displayArrow(I, i1, j1, i2, j2, col, L, l)`, for both pixel types. -/
def displayArrow (D : Backend σ ε) (I : vpImage α σ) (i1 j1 i2 j2 : Int)
    (col : vpColorType) (L l : Nat) : Except (Thrown ε) (vpImage α σ) :=
  rethrow (match I.display with
    | some s => (D.displayArrow i1 j1 i2 j2 col L l s).map (attach I)
    | none => .ok I)

/-- Call `displayRectangle(I, i, j, width, height, col, fill, e)`; the source has
it for `vpImage<unsigned char>` only. -/
def displayRectangle (D : Backend σ ε) (I : vpImage Nat σ) (i j : Int)
    (width height : Nat) (col : vpColorType) (fill : Bool) (e : Nat) :
    Except (Thrown ε) (vpImage Nat σ) :=
  rethrow (match I.display with
    | some s => (D.displayRectangle i j width height col fill e s).map (attach I)
    | none => .ok I)

/-- Call `displayRectangle(I, rect, col, fill, e)`; the source has it for
`vpImage<unsigned char>` only. -/
def displayRectangleRect (D : Backend σ ε) (I : vpImage Nat σ) (rect : vpRect)
    (col : vpColorType) (fill : Bool) (e : Nat) : Except (Thrown ε) (vpImage Nat σ) :=
  rethrow (match I.display with
    | some s => (D.displayRectangleRect rect col fill e s).map (attach I)
    | none => .ok I)

/-- Calls `displayCharString(I, i, j, s, c)`, for both pixel types. -/
def displayCharString (D : Backend σ ε) (I : vpImage α σ) (i j : Int) (str : String)
    (c : vpColorType) : Except (Thrown ε) (vpImage α σ) :=
  rethrow (match I.display with
    | some s => (D.displayCharString i j str c s).map (attach I)
    | none => .ok I)

/-- Calls `flush(I)`, for both pixel types. -/
def flush (D : Backend σ ε) (I : vpImage α σ) : Except (Thrown ε) (vpImage α σ) :=
  rethrow (match I.display with
    | some s => (D.flushDisplay s).map (attach I)
    | none => .ok I)

/-- Calls `close(I)`, for both pixel types. -/
def close (D : Backend σ ε) (I : vpImage α σ) : Except (Thrown ε) (vpImage α σ) :=
  rethrow (match I.display with
    | some s => (D.closeDisplay s).map (attach I)
    | none => .ok I)

/-- Calls `getClick(I, i, j, blocking)`, for both pixel types: the return value
with the contents of `i` and `j`, and `I` after the call. -/
def getClick (D : Backend σ ε) (I : vpImage α σ) (i j : Nat) (blocking : Bool) :
    Except (Thrown ε) (Click × vpImage α σ) :=
  rethrow (match I.display with
    | some s => (D.getClick i j blocking s).map (fun r => (r.1, attach I r.2))
    | none => .ok ({ ret := false, i := i, j := j }, I))

/-- Calls `getClick(I, i, j, button, blocking)`, for both pixel types. -/
def getClickButton (D : Backend σ ε) (I : vpImage α σ) (i j : Nat)
    (button : vpMouseButtonType) (blocking : Bool) :
    Except (Thrown ε) (ClickButton × vpImage α σ) :=
  rethrow (match I.display with
    | some s => (D.getClickButton i j button blocking s).map
        (fun r => (r.1, attach I r.2))
    | none => .ok ({ ret := false, i := i, j := j, button := button }, I))

/-- Calls `getClick(I, blocking)`, for both pixel types. -/
def getClickWait (D : Backend σ ε) (I : vpImage α σ) (blocking : Bool) :
    Except (Thrown ε) (Bool × vpImage α σ) :=
  rethrow (match I.display with
    | some s => (D.getClickWait blocking s).map (fun r => (r.1, attach I r.2))
    | none => .ok (false, I))

/-- Calls `getClickUp(I, i, j, button, blocking)`, for both pixel types. -/
def getClickUp (D : Backend σ ε) (I : vpImage α σ) (i j : Nat)
    (button : vpMouseButtonType) (blocking : Bool) :
    Except (Thrown ε) (ClickButton × vpImage α σ) :=
  rethrow (match I.display with
    | some s => (D.getClickUp i j button blocking s).map (fun r => (r.1, attach I r.2))
    | none => .ok ({ ret := false, i := i, j := j, button := button }, I))

/-- Calls `displayPoint_uv(I, u, v, col)`, for both pixel types. -/
def displayPoint_uv (D : Backend σ ε) (I : vpImage α σ) (u v : Int) (col : vpColorType) :
    Except (Thrown ε) (vpImage α σ) :=
  rethrow (match I.display with
    | some s => (D.displayPoint v u col s).map (attach I)
    | none => .ok I)

/-- Calls `displayCross_uv(I, u, v, size, col)`, for both pixel types. -/
def displayCross_uv (D : Backend σ ε) (I : vpImage α σ) (u v : Int) (size : Nat)
    (col : vpColorType) : Except (Thrown ε) (vpImage α σ) :=
  rethrow (match I.display with
    | some s => (D.displayCross v u size col s).map (attach I)
    | none => .ok I)

/-- Calls `displayCrossLarge_uv(I, u, v, size, col)`, for both pixel types. -/
def displayCrossLarge_uv (D : Backend σ ε) (I : vpImage α σ) (u v : Int) (size : Nat)
    (col : vpColorType) : Except (Thrown ε) (vpImage α σ) :=
  rethrow (match I.display with
    | some s => (D.displayCrossLarge v u size col s).map (attach I)
    | none => .ok I)

/-- Calls `displayCircle_uv(I, u, v, r, col)`, for both pixel types. -/
def displayCircle_uv (D : Backend σ ε) (I : vpImage α σ) (u v : Int) (r : Nat)
    (col : vpColorType) : Except (Thrown ε) (vpImage α σ) :=
  rethrow (match I.display with
    | some s => (D.displayCircle v u r col s).map (attach I)
    | none => .ok I)

/-- Calls `displayLine_uv(I, u1, v1, u2, v2, col, e)`, for both pixel types. -/
def displayLine_uv (D : Backend σ ε) (I : vpImage α σ) (u1 v1 u2 v2 : Int)
    (col : vpColorType) (e : Nat) : Except (Thrown ε) (vpImage α σ) :=
  rethrow (match I.display with
    | some s => (D.displayLine v1 u1 v2 u2 col e s).map (attach I)
    | none => .ok I)

/-- Calls `displayDotLine_uv(I, u1, v1, u2, v2, col, e2)`, for both pixel types. -/
def displayDotLine_uv (D : Backend σ ε) (I : vpImage α σ) (u1 v1 u2 v2 : Int)
    (col : vpColorType) (e2 : Nat) : Except (Thrown ε) (vpImage α σ) :=
  rethrow (match I.display with
    | some s => (D.displayDotLine v1 u1 v2 u2 col e2 s).map (attach I)
    | none => .ok I)

/-- Calls `displayArrow_uv(I, u1, v1, u2, v2, col, L, l)`, for both pixel types. -/
def displayArrow_uv (D : Backend σ ε) (I : vpImage α σ) (u1 v1 u2 v2 : Int)
    (col : vpColorType) (L l : Nat) : Except (Thrown ε) (vpImage α σ) :=
  rethrow (match I.display with
    | some s => (D.displayArrow v1 u1 v2 u2 col L l s).map (attach I)
    | none => .ok I)

/-- Call `displayRectangle_uv(I, u, v, width, height, col, fill, e)`; the source
has it for `vpImage<unsigned char>` only. -/
def displayRectangle_uv (D : Backend σ ε) (I : vpImage Nat σ) (u v : Int)
    (width height : Nat) (col : vpColorType) (fill : Bool) (e : Nat) :
    Except (Thrown ε) (vpImage Nat σ) :=
  rethrow (match I.display with
    | some s => (D.displayRectangle v u width height col fill e s).map (attach I)
    | none => .ok I)

/-- Calls `displayCharString_uv(I, u, v, s, c)`, for both pixel types. -/
def displayCharString_uv (D : Backend σ ε) (I : vpImage α σ) (u v : Int) (str : String)
    (c : vpColorType) : Except (Thrown ε) (vpImage α σ) :=
  rethrow (match I.display with
    | some s => (D.displayCharString v u str c s).map (attach I)
    | none => .ok I)

/-- Calls `getClick_uv(I, u, v, blocking)`, for both pixel types: the backend is
called as `getClick ( v, u, blocking )`, so its first reference argument is `v`
and its second is `u`. -/
def getClick_uv (D : Backend σ ε) (I : vpImage α σ) (u v : Nat) (blocking : Bool) :
    Except (Thrown ε) (ClickUV × vpImage α σ) :=
  rethrow (match I.display with
    | some s => (D.getClick v u blocking s).map
        (fun r => ({ ret := r.1.ret, u := r.1.j, v := r.1.i }, attach I r.2))
    | none => .ok ({ ret := false, u := u, v := v }, I))

/-- Calls `getClick_uv(I, u, v, button, blocking)`, for both pixel types. -/
def getClickButton_uv (D : Backend σ ε) (I : vpImage α σ) (u v : Nat)
    (button : vpMouseButtonType) (blocking : Bool) :
    Except (Thrown ε) (ClickButtonUV × vpImage α σ) :=
  rethrow (match I.display with
    | some s => (D.getClickButton v u button blocking s).map
        (fun r => ({ ret := r.1.ret, u := r.1.j, v := r.1.i, button := r.1.button },
                   attach I r.2))
    | none => .ok ({ ret := false, u := u, v := v, button := button }, I))

/-- Calls `getClickUp_uv(I, u, v, button, blocking)`, for both pixel types. -/
def getClickUp_uv (D : Backend σ ε) (I : vpImage α σ) (u v : Nat)
    (button : vpMouseButtonType) (blocking : Bool) :
    Except (Thrown ε) (ClickButtonUV × vpImage α σ) :=
  rethrow (match I.display with
    | some s => (D.getClickUp v u button blocking s).map
        (fun r => ({ ret := r.1.ret, u := r.1.j, v := r.1.i, button := r.1.button },
                   attach I r.2))
    | none => .ok ({ ret := false, u := u, v := v, button := button }, I))

/-- The result of a `getClick` call read as the result of a `getClick_uv` call:
the row goes to `v`, the column to `u`. -/
def Click.toUV (c : Click) : ClickUV := { ret := c.ret, u := c.j, v := c.i }

/-- The same for the calls with a `button` argument. -/
def ClickButton.toUV (c : ClickButton) : ClickButtonUV :=
  { ret := c.ret, u := c.j, v := c.i, button := c.button }

end vpDisplay

/-! ## The point feature `vpFeaturePoint` -/

/-- Modelled from the spec: the table `vpBasicFeature::FEATURE_LINE` read by
`selectX()` and `selectY()` is not part of the sources; the spec calls `select`
a bitmask, so entry `k` is the mask with bit `k` alone. -/
def FEATURE_LINE (k : Nat) : Nat := 1 <<< k

/-- Modelled from the spec: the constant `vpBasicFeature::FEATURE_ALL` is not
part of the sources; the spec has it select both coordinates, and it is the
mask with the sixteen low bits set. -/
def FEATURE_ALL : Nat := 0xffff

/-- Modelled from the spec: class `vpMatrix` is not part of the sources. A
matrix is its two dimensions and its rows. -/
structure vpMatrix where
  rowNum : Nat
  colNum : Nat
  rows : List (List ℚ)
deriving DecidableEq

namespace vpMatrix

/-- Modelled from the spec: `vpMatrix` is not part of the sources. The matrix
with no row and `c` columns, from which `interaction` starts. -/
def empty (c : Nat) : vpMatrix := { rowNum := 0, colNum := c, rows := [] }

/-- Modelled from the spec: `vpMatrix` is not part of the sources. One more row
below the rows of `L` ("Row order, when both selected, is [x-row; y-row]"). -/
def stackRow (L : vpMatrix) (r : List ℚ) : vpMatrix :=
  { L with rowNum := L.rowNum + 1, rows := L.rows ++ [r] }

end vpMatrix

/-- Class `vpFeaturePoint`: the coordinates `x`, `y` (the feature vector of the
base class) and the private member `Z`. The spec has them real-valued; they are
rationals here. -/
structure vpFeaturePoint where
  x : ℚ
  y : ℚ
  Z : ℚ
deriving DecidableEq

namespace vpFeaturePoint

/-- Static member `selectX()` of the header: `FEATURE_LINE[0]`. -/
def selectX : Nat := FEATURE_LINE 0

/-- Static member `selectY()` of the header: `FEATURE_LINE[1]`. -/
def selectY : Nat := FEATURE_LINE 1

/-- Modelled from the spec: the body of `buildFrom` is not part of the sources
(the header declares it). A point feature "constructed ... directly from (x, y, Z)". -/
def buildFrom (x y Z : ℚ) : vpFeaturePoint := { x := x, y := y, Z := Z }

/-- Modelled from the spec: the x-row `[-1/Z, 0, x/Z, x*y, -(1+x²), y]`. -/
def xRow (s : vpFeaturePoint) : List ℚ :=
  [-1 / s.Z, 0, s.x / s.Z, s.x * s.y, -(1 + s.x ^ 2), s.y]

/-- Modelled from the spec: the y-row `[0, -1/Z, y/Z, 1+y², -x*y, -x]`. -/
def yRow (s : vpFeaturePoint) : List ℚ :=
  [0, -1 / s.Z, s.y / s.Z, 1 + s.y ^ 2, -s.x * s.y, -s.x]

/-- Modelled from the spec: the body of `interaction` is not part of the sources
(the header declares it). "`select` is a bitmask choosing which of the two rows
to emit ...; the returned matrix has as many rows as bits set (1 or 2) and
exactly 6 columns. Row order, when both selected, is [x-row; y-row]. Fails ...
when `Z == 0`": `none` is that failure. -/
def interaction (s : vpFeaturePoint) (select : Nat) : Option vpMatrix :=
  if s.Z = 0 then none
  else
    let L := vpMatrix.empty 6
    let L := if FEATURE_LINE 0 &&& select ≠ 0 then L.stackRow s.xRow else L
    let L := if FEATURE_LINE 1 &&& select ≠ 0 then L.stackRow s.yRow else L
    some L

/-- Modelled from the spec: the body of `error` is not part of the sources (the
header declares it). "componentwise difference `current - desired` for each
selected coordinate (x and/or y independently), producing a vector of length
equal to the number of selected components, in the same [x, y] order". -/
def error (s s_star : vpFeaturePoint) (select : Nat) : List ℚ :=
  let e : List ℚ := []
  let e := if FEATURE_LINE 0 &&& select ≠ 0 then e ++ [s.x - s_star.x] else e
  let e := if FEATURE_LINE 1 &&& select ≠ 0 then e ++ [s.y - s_star.y] else e
  e

/-- Modelled from the spec: the body of `set_x` is not part of the sources (the
header declares it: "set the point x-coordinates"). -/
def set_x (s : vpFeaturePoint) (x : ℚ) : vpFeaturePoint := { s with x := x }

/-- Modelled from the spec: the body of `set_y` is not part of the sources (the
header declares it: "set the point y-coordinates"). -/
def set_y (s : vpFeaturePoint) (y : ℚ) : vpFeaturePoint := { s with y := y }

/-- Modelled from the spec: the body of `set_Z` is not part of the sources (the
header declares it: "set the point depth"); "no range validation ... not
enforced at set-time". -/
def set_Z (s : vpFeaturePoint) (Z : ℚ) : vpFeaturePoint := { s with Z := Z }

/-- Modelled from the spec: the body of `set_xyZ` is not part of the sources
(the header declares it: "set the point xy and Z-coordinates"), the "bulk
setter": the three single setters one after the other. -/
def set_xyZ (s : vpFeaturePoint) (x y Z : ℚ) : vpFeaturePoint :=
  ((s.set_x x).set_y y).set_Z Z

/-- Modelled from the spec: the body of `get_x` is not part of the sources (the
header declares it: "get the point x-coordinates"), a read-only accessor. -/
def get_x (s : vpFeaturePoint) : ℚ := s.x

/-- Modelled from the spec: the body of `get_y` is not part of the sources (the
header declares it: "get the point y-coordinates"), a read-only accessor. -/
def get_y (s : vpFeaturePoint) : ℚ := s.y

/-- Modelled from the spec: the body of `get_Z` is not part of the sources (the
header declares it: "get the point depth"), a read-only accessor. -/
def get_Z (s : vpFeaturePoint) : ℚ := s.Z

end vpFeaturePoint

/-! ## Concrete inputs -/

namespace Sample

/-- Some contents of the members of a driver before its constructor runs. -/
def rawMembers : vpIcCompGrabber :=
  { init := true, framegrabber := none, input := 9, scale := 0,
    framerate := .framerate_50fps, field := 0, ncols := 7, nrows := 5 }

/-- A board of `H` rows and `W` columns: every frame has field 1, and the colour
conversion yields the buffer whose byte at offset `k` is `k % 256`. -/
def board (H W : Nat) : Platform :=
  { fresh := { camera := 0, decimation := 1, nbufs := 0, depth := 0, cbCrOrder := 0,
               ready := false, acquired := 0 }
    Init := fun fg => { fg with ready := true }
    GetWidth := fun _ => W
    GetHeight := fun _ => H
    frames := fun _ => { field := 1, bitmap := fun k => k % 256 }
    ConvertYCbCrToRGBA := fun _ _ _ k => k % 256
    freshRGBa := fun _ => { R := 0, G := 0, B := 0, A := 255 }
    freshGrey := fun _ => 0 }

/-- The driver that `vpIcCompGrabber g(2, S)` builds on the board, for a scale
`S` in `[1,16]`. -/
def built (H W S : Nat) : vpIcCompGrabber :=
  { init := false
    framegrabber := some (((board H W).fresh.SetCamera 2).SetDecimation S)
    input := 2
    scale := S
    framerate := .framerate_25fps
    field := rawMembers.field
    ncols := rawMembers.ncols
    nrows := rawMembers.nrows }

/-- The board of `H` rows and `W` columns whose frames report field 0 before
frame `first` and field 1 from frame `first` on; byte `k` of the raw buffer of
frame `n` is `(n + k) % 256`. -/
def lateField (H W first : Nat) : Platform :=
  { board H W with
    frames := fun n => { field := if n < first then 0 else 1,
                         bitmap := fun k => (n + k) % 256 } }

/-- The board of `H` rows and `W` columns whose frames all report field 0. -/
def noField (H W : Nat) : Platform :=
  { board H W with frames := fun n => { field := 0, bitmap := fun k => (n + k) % 256 } }

/-- The driver `vpIcCompGrabber g(2, S)` after `g.open(I)` for a grey image, on
a board of `H` rows and `W` columns whose `Init()` only marks the handle ready. -/
def openedGrey (H W S : Nat) : vpIcCompGrabber :=
  { init := true
    framegrabber := some { camera := 2, decimation := S, nbufs := if S = 1 then 1 else 2,
                           depth := 8, cbCrOrder := ICCOMP_NORMAL_ORDER, ready := true,
                           acquired := 0 }
    input := 2
    scale := S
    framerate := .framerate_25fps
    field := rawMembers.field
    ncols := W
    nrows := H }

/-- The grey image after that `open`: `H` rows, `W` columns, no display. -/
def sizedGrey (H W : Nat) : vpImage Nat Nat :=
  { height := H, width := W, bitmap := fun _ => 0, display := none }

/-- A colour image of `h` rows and `w` columns, every pixel (1, 2, 3, 255), no
display. -/
def sizedColour (h w : Nat) : vpImage vpRGBa Nat :=
  { height := h, width := w, bitmap := fun _ => { R := 1, G := 2, B := 3, A := 255 },
    display := none }

/-- The driver `vpIcCompGrabber g(2, S)` after `g.open(I)` for a colour image,
on a board of `H` rows and `W` columns whose `Init()` only marks the handle
ready. -/
def openedColour (H W S : Nat) : vpIcCompGrabber :=
  { init := true
    framegrabber := some { camera := 0, decimation := 1, nbufs := 1, depth := 16,
                           cbCrOrder := ICCOMP_NORMAL_ORDER, ready := true,
                           acquired := 0 }
    input := 2
    scale := S
    framerate := .framerate_25fps
    field := rawMembers.field
    ncols := W / S
    nrows := H / S }

/-- An empty colour image with no display attached. -/
def colourImage : vpImage vpRGBa Nat :=
  { height := 0, width := 0, bitmap := fun _ => { R := 0, G := 0, B := 0, A := 0 },
    display := none }

/-- An empty grey image with no display attached. -/
def greyImage : vpImage Nat Nat :=
  { height := 0, width := 0, bitmap := fun _ => 0, display := none }

/-- The calls `vpIcCompGrabber g(2, S); g.open(I); g.acquire(I);` on a board of
`H` rows and `W` columns, for a colour image `I`. -/
def grabColour (H W S : Nat) : Except Fault (vpIcCompGrabber × vpImage vpRGBa Nat) := do
  let g ← vpIcCompGrabber.mk2 (board H W) rawMembers 2 S
  let r ← vpIcCompGrabber.openRGBa (board H W) g colourImage
  vpIcCompGrabber.acquireRGBa (board H W) r.1 r.2

/-- The converted RGBA buffer of the first frame of the board, at the size of
the board. -/
def converted (H W : Nat) : Nat → Nat :=
  (board H W).ConvertYCbCrToRGBA ((board H W).frames 0).bitmap H W

/-- Byte `c` of pixel `(row, col)` in an RGBA buffer `buf` of width `W`: four
bytes a pixel, rows one after the other. -/
def sourceByte (buf : Nat → Nat) (W row col c : Nat) : Nat := buf (4 * (row * W + col) + c)

/-- A backend whose state counts the operations done on it. It throws the
exception `other 7` for a cross of size 0 and for a non-blocking click query,
and reports every click at row 11, column 22. -/
def counting : Backend Nat Nat :=
  { flushTitle := fun _ s => .ok (s + 1)
    displayImageGrey := fun _ s => .ok (s + 1)
    displayImageRGBa := fun _ s => .ok (s + 1)
    getImage := fun Idest s => .ok (Idest, s + 1)
    displayPoint := fun _ _ _ s => .ok (s + 1)
    displayCross := fun _ _ size _ s => if size = 0 then .error (.other 7) else .ok (s + 1)
    displayCrossLarge := fun _ _ _ _ s => .ok (s + 1)
    displayCircle := fun _ _ _ _ s => .ok (s + 1)
    displayLine := fun _ _ _ _ _ _ s => .ok (s + 1)
    displayDotLine := fun _ _ _ _ _ _ s => .ok (s + 1)
    displayArrow := fun _ _ _ _ _ _ _ s => .ok (s + 1)
    displayRectangle := fun _ _ _ _ _ _ _ s => .ok (s + 1)
    displayRectangleRect := fun _ _ _ _ s => .ok (s + 1)
    displayCharString := fun _ _ _ _ s => .ok (s + 1)
    flushDisplay := fun s => .ok (s + 1)
    closeDisplay := fun s => .ok (s + 1)
    getClick := fun _ _ blocking s =>
      if blocking then .ok ({ ret := true, i := 11, j := 22 }, s + 1)
      else .error (.other 7)
    getClickButton := fun _ _ b _ s => .ok ({ ret := true, i := 11, j := 22, button := b }, s + 1)
    getClickWait := fun _ s => .ok (true, s + 1)
    getClickUp := fun _ _ b _ s => .ok ({ ret := true, i := 11, j := 22, button := b }, s + 1) }

/-- A grey image of size 2 x 2 with the backend `counting` attached, in state 0. -/
def shownGrey : vpImage Nat Nat :=
  { height := 2, width := 2, bitmap := fun _ => 0, display := some 0 }

/-- A colour image of size 2 x 2 with the backend `counting` attached, in state 0. -/
def shownColour : vpImage vpRGBa Nat :=
  { height := 2, width := 2, bitmap := fun _ => { R := 0, G := 0, B := 0, A := 0 },
    display := some 0 }

end Sample

/-- A pixel after the three assignments of the body of the decimation loop, read
from offset `ptr` of the buffer: `B`, `G` and `R` are written, `A` is kept. -/
def loopPixel (bitmaprgba : Nat → Nat) (ptr : Nat) (p : vpRGBa) : vpRGBa :=
  { p with B := bitmaprgba ptr, G := bitmaprgba (ptr + 1), R := bitmaprgba (ptr + 2) }

/-- A call `call` of the dispatcher passes on what the backend operation `op`
did: the same exception when `op` threw, and the result of `op`, read through
`wrap`, when it returned. -/
def PassesOn {ε β γ : Type} (op : Except (Thrown ε) β) (call : Except (Thrown ε) γ)
    (wrap : β → γ) : Prop :=
  (∀ e, op = .error e → call = .error e) ∧ (∀ b, op = .ok b → call = .ok (wrap b))

/-! ## The driver: setters, construction, acquisition -/

open vpIcCompGrabber

theorem setInput_of_handle (d : vpIcCompGrabber) (fg : ICcomp2x) (k : Nat)
    (hfg : d.framegrabber = some fg) (hk : k ≤ 3) :
    setInput d k = .ok { d with input := k, framegrabber := some (fg.SetCamera k) } := by
  have h : ¬ k > 3 := by omega
  unfold setInput
  rw [if_neg h]
  simp [hfg]

theorem setScale_of_handle (d : vpIcCompGrabber) (fg : ICcomp2x) (s : Nat)
    (hfg : d.framegrabber = some fg) (h1 : 1 ≤ s) (h16 : s ≤ 16) :
    setScale d s = .ok { d with scale := s, framegrabber := some (fg.SetDecimation s) } := by
  have h : ¬ (s < 1 ∨ s > 16) := by omega
  unfold setScale
  rw [if_neg h]
  simp [hfg]

theorem setInput_settingError_iff (d : vpIcCompGrabber) (k : Nat) :
    setInput d k = .error (.thrown .settingError) ↔ k > 3 := by
  constructor
  · intro h
    by_contra hk
    unfold setInput at h
    rw [if_neg hk] at h
    cases hfg : d.framegrabber <;> simp [hfg] at h
  · intro hk
    simp [setInput, hk]

theorem setScale_settingError_iff (d : vpIcCompGrabber) (s : Nat) :
    setScale d s = .error (.thrown .settingError) ↔ (s < 1 ∨ s > 16) := by
  constructor
  · intro h
    by_contra hs
    unfold setScale at h
    rw [if_neg hs] at h
    cases hfg : d.framegrabber <;> simp [hfg] at h
  · intro hs
    unfold setScale
    rw [if_pos hs]

/-- Claim C4. For every value `k`, `setInput(k)` throws `settingError` exactly
when `k > 3`; for `k` in `[0,3]`, on a driver whose handle exists, it returns
with `k` stored in the member `input` and the camera of the handle set to `k`,
nothing else changed. -/
theorem C4_setInput (d : vpIcCompGrabber) (k : Nat) :
    (setInput d k = .error (.thrown .settingError) ↔ k > 3) ∧
    (∀ fg, d.framegrabber = some fg → k ≤ 3 →
      setInput d k =
        .ok { d with input := k, framegrabber := some { fg with camera := k } }) :=
  ⟨setInput_settingError_iff d k, fun fg hfg hk => setInput_of_handle d fg k hfg hk⟩

/-- Claim C4 at a concrete input: a driver built with input 2 and scale 2 on the
sample board, then `setInput(3)`. -/
theorem C4_setInput_witness :
    ∃ d fg, mk2 (Sample.board 576 768) Sample.rawMembers 2 2 = .ok d ∧
      d.framegrabber = some fg ∧
      setInput d 3 =
        .ok { d with input := 3, framegrabber := some { fg with camera := 3 } } ∧
      setInput d 4 = .error (.thrown .settingError) := by
  refine ⟨_, _, rfl, rfl, ?_, ?_⟩
  · exact (C4_setInput _ 3).2 _ rfl (by decide)
  · exact (C4_setInput _ 4).1.2 (by decide)

/-- Claim C5. For every value `s`, `setScale(s)` throws `settingError` exactly
when `s < 1` or `s > 16`; for `s` in `[1,16]`, on a driver whose handle exists,
it returns with `s` stored in the member `scale` and the decimation of the
handle set to `s`, nothing else changed. -/
theorem C5_setScale (d : vpIcCompGrabber) (s : Nat) :
    (setScale d s = .error (.thrown .settingError) ↔ (s < 1 ∨ s > 16)) ∧
    (∀ fg, d.framegrabber = some fg → 1 ≤ s → s ≤ 16 →
      setScale d s =
        .ok { d with scale := s, framegrabber := some { fg with decimation := s } }) :=
  ⟨setScale_settingError_iff d s,
   fun fg hfg h1 h16 => setScale_of_handle d fg s hfg h1 h16⟩

/-- Claim C5 at a concrete input: a driver built with input 2 and scale 2 on the
sample board, then `setScale(16)`, `setScale(0)` and `setScale(17)`. -/
theorem C5_setScale_witness :
    ∃ d fg, mk2 (Sample.board 576 768) Sample.rawMembers 2 2 = .ok d ∧
      d.framegrabber = some fg ∧
      setScale d 16 =
        .ok { d with scale := 16, framegrabber := some { fg with decimation := 16 } } ∧
      setScale d 0 = .error (.thrown .settingError) ∧
      setScale d 17 = .error (.thrown .settingError) := by
  refine ⟨_, _, rfl, rfl, ?_, ?_, ?_⟩
  · exact (C5_setScale _ 16).2 _ rfl (by decide) (by decide)
  · exact (C5_setScale _ 0).1.2 (by decide)
  · exact (C5_setScale _ 17).1.2 (by decide)

/-- The driver the two-argument constructor builds from valid arguments. -/
theorem mk2_of_valid (P : Platform) (raw : vpIcCompGrabber) (_input _scale : Nat)
    (hi : _input ≤ 3) (h1 : 1 ≤ _scale) (h16 : _scale ≤ 16) :
    mk2 P raw _input _scale =
      .ok { init := false
            framegrabber := some ((P.fresh.SetCamera _input).SetDecimation _scale)
            input := _input
            scale := _scale
            framerate := .framerate_25fps
            field := raw.field
            ncols := raw.ncols
            nrows := raw.nrows } := by
  unfold mk2
  simp only []
  rw [setInput_of_handle _ P.fresh _input rfl hi]
  simp only [bind, Except.bind]
  rw [setScale_of_handle _ (P.fresh.SetCamera _input) _scale rfl h1 h16]
  rfl

theorem acquireRGBa_of_handle {δ : Type} (P : Platform) (d : vpIcCompGrabber)
    (fg : ICcomp2x) (I : vpImage vpRGBa δ) (hfg : d.framegrabber = some fg) :
    ∃ r, acquireRGBa P d I = .ok r := by
  unfold acquireRGBa
  simp only [hfg]
  split <;> exact ⟨_, rfl⟩

theorem acquireGrey_of_handle {δ : Type} (P : Platform) (fuel : Nat) (d : vpIcCompGrabber)
    (fg : ICcomp2x) (I : vpImage Nat δ) (hfg : d.framegrabber = some fg) :
    acquireGrey P fuel d I = none ∨ ∃ r, acquireGrey P fuel d I = some (.ok r) := by
  unfold acquireGrey
  simp only [hfg]
  split
  · exact Or.inl rfl
  · exact Or.inr ⟨_, rfl⟩

theorem acquireGrey_ne_initializationError {δ : Type} (P : Platform) (fuel : Nat)
    (d : vpIcCompGrabber) (fg : ICcomp2x) (I : vpImage Nat δ)
    (hfg : d.framegrabber = some fg) :
    acquireGrey P fuel d I ≠ some (.error (.thrown .initializationError)) := by
  intro h
  rcases acquireGrey_of_handle P fuel d fg I hfg with h0 | ⟨r, hr⟩
  · rw [h0] at h
    cases h
  · rw [hr] at h
    cases h

/-- Claim C2, as the code has it. A driver built by the constructor
`vpIcCompGrabber(_input, _scale)` with valid arguments, on which `open()` was
never called, has `init == false` and a handle that is not `NULL`; `acquire()`
on it does not throw `initializationError`: the colour `acquire` returns
normally, and the grey `acquire` either returns normally or is still in its
loop, whatever the number of acquisitions allowed. -/
theorem C2_acquire_without_open {δ : Type} (P : Platform) (raw : vpIcCompGrabber)
    (_input _scale : Nat) (Ic : vpImage vpRGBa δ) (Ig : vpImage Nat δ)
    (hi : _input ≤ 3) (h1 : 1 ≤ _scale) (h16 : _scale ≤ 16) :
    ∃ d, mk2 P raw _input _scale = .ok d ∧ d.init = false ∧
      (∃ r, acquireRGBa P d Ic = .ok r) ∧
      (∀ fuel, acquireGrey P fuel d Ig = none ∨
        ∃ r, acquireGrey P fuel d Ig = some (.ok r)) ∧
      (∀ fuel, acquireGrey P fuel d Ig ≠ some (.error (.thrown .initializationError))) := by
  refine ⟨_, mk2_of_valid P raw _input _scale hi h1 h16, rfl, ?_, ?_, ?_⟩
  · exact acquireRGBa_of_handle P _ _ Ic rfl
  · intro fuel
    exact acquireGrey_of_handle P fuel _ _ Ig rfl
  · intro fuel
    exact acquireGrey_ne_initializationError P fuel _ _ Ig rfl

/-- Claim C2 at a concrete input: `vpIcCompGrabber g(2, 2)` on the sample board,
then `g.acquire(I)` without `open()`. -/
theorem C2_acquire_without_open_witness :
    ∃ d, mk2 (Sample.board 576 768) Sample.rawMembers 2 2 = .ok d ∧ d.init = false ∧
      (∃ r, acquireRGBa (Sample.board 576 768) d Sample.colourImage = .ok r) ∧
      (∀ fuel, acquireGrey (Sample.board 576 768) fuel d Sample.greyImage = none ∨
        ∃ r, acquireGrey (Sample.board 576 768) fuel d Sample.greyImage = some (.ok r)) ∧
      (∀ fuel, acquireGrey (Sample.board 576 768) fuel d Sample.greyImage ≠
        some (.error (.thrown .initializationError))) :=
  C2_acquire_without_open (Sample.board 576 768) Sample.rawMembers 2 2
    Sample.colourImage Sample.greyImage (by decide) (by decide) (by decide)

/-- One turn of the inner loop: the three assignments amount to one update of
the pixel at `(i, j)`. -/
theorem decimateRow_succ {δ : Type} (buf : Nat → Nat) (S i n j ptr : Nat)
    (I : vpImage vpRGBa δ) :
    decimateRow buf S i (n + 1) j ptr I =
      decimateRow buf S i n (j + 1) (ptr + 4 * S)
        { I with bitmap := Function.update I.bitmap (i * I.width + j)
                    (loopPixel buf ptr (I.bitmap (i * I.width + j))) } := by
  rw [decimateRow]
  congr 1
  simp [vpImage.set, vpImage.get, loopPixel]

/-- The inner loop, started at column `j` and offset `ptr` for `n` turns:
it ends at offset `ptr + 4*S*n`, keeps the size and the display of the image,
leaves the pixels outside columns `j .. j+n-1` of row `i` alone, and writes
into column `j + t` the bytes at offset `ptr + 4*S*t`. -/
theorem decimateRow_spec {δ : Type} (buf : Nat → Nat) (S i : Nat) :
    ∀ (n j ptr : Nat) (I : vpImage vpRGBa δ),
      (decimateRow buf S i n j ptr I).1 = ptr + 4 * S * n ∧
      (decimateRow buf S i n j ptr I).2.height = I.height ∧
      (decimateRow buf S i n j ptr I).2.width = I.width ∧
      (decimateRow buf S i n j ptr I).2.display = I.display ∧
      (∀ k, k < i * I.width + j ∨ i * I.width + j + n ≤ k →
        (decimateRow buf S i n j ptr I).2.bitmap k = I.bitmap k) ∧
      (∀ t, t < n →
        (decimateRow buf S i n j ptr I).2.bitmap (i * I.width + j + t) =
          loopPixel buf (ptr + 4 * S * t) (I.bitmap (i * I.width + j + t))) := by
  intro n
  induction n with
  | zero =>
    intro j ptr I
    refine ⟨by simp [decimateRow], rfl, rfl, rfl, fun k _ => rfl, fun t ht => by omega⟩
  | succ n ih =>
    intro j ptr I
    rw [decimateRow_succ]
    obtain ⟨h1, h2, h3, h4, h5, h6⟩ := ih (j + 1) (ptr + 4 * S)
      { I with bitmap := Function.update I.bitmap (i * I.width + j)
                  (loopPixel buf ptr (I.bitmap (i * I.width + j))) }
    dsimp only at h1 h2 h3 h4 h5 h6
    refine ⟨by rw [h1]; ring, h2, h3, h4, ?_, ?_⟩
    · intro k hk
      rw [h5 k (by omega)]
      exact Function.update_noteq (by omega) _ _
    · intro t ht
      cases t with
      | zero =>
        rw [h5 _ (by omega)]
        simp
      | succ t =>
        have e : i * I.width + j + (t + 1) = i * I.width + (j + 1) + t := by omega
        rw [e, h6 t (by omega)]
        have e2 : ptr + 4 * S + 4 * S * t = ptr + 4 * S * (t + 1) := by ring
        rw [e2, Function.update_noteq (by omega)]


/-- One turn of the outer loop. -/
theorem decimateRows_succ {δ : Type} (buf : Nat → Nat) (S W m i ptr : Nat)
    (I : vpImage vpRGBa δ) :
    decimateRows buf S W (m + 1) i ptr I =
      decimateRows buf S W m (i + 1)
        ((decimateRow buf S i I.width 0 ptr I).1 + W * 4 * 1 * (S - 1))
        (decimateRow buf S i I.width 0 ptr I).2 := by
  rw [decimateRows]
  rfl

/-- The outer loop, started at row `i` and offset `ptr` for `m` turns: it keeps
the size and the display of the image, leaves the pixels outside rows
`i .. i+m-1` alone, and writes into pixel `(i + q, c)` the bytes at offset
`ptr + q * (4*S*width + W*4*(S-1)) + 4*S*c`. -/
theorem decimateRows_spec {δ : Type} (buf : Nat → Nat) (S W : Nat) :
    ∀ (m i ptr : Nat) (I : vpImage vpRGBa δ),
      (decimateRows buf S W m i ptr I).2.height = I.height ∧
      (decimateRows buf S W m i ptr I).2.width = I.width ∧
      (decimateRows buf S W m i ptr I).2.display = I.display ∧
      (∀ k, k < i * I.width ∨ (i + m) * I.width ≤ k →
        (decimateRows buf S W m i ptr I).2.bitmap k = I.bitmap k) ∧
      (∀ q c, q < m → c < I.width →
        (decimateRows buf S W m i ptr I).2.bitmap ((i + q) * I.width + c) =
          loopPixel buf (ptr + q * (4 * S * I.width + W * 4 * 1 * (S - 1)) + 4 * S * c)
            (I.bitmap ((i + q) * I.width + c))) := by
  intro m
  induction m with
  | zero =>
    intro i ptr I
    exact ⟨rfl, rfl, rfl, fun k _ => rfl, fun q c hq _ => by omega⟩
  | succ m ih =>
    intro i ptr I
    rw [decimateRows_succ]
    obtain ⟨r1, r2, r3, r4, r5, r6⟩ := decimateRow_spec buf S i I.width 0 ptr I
    obtain ⟨h2, h3, h4, h5, h6⟩ := ih (i + 1)
      ((decimateRow buf S i I.width 0 ptr I).1 + W * 4 * 1 * (S - 1))
      (decimateRow buf S i I.width 0 ptr I).2
    rw [r3] at h3 h5 h6
    have e1 : (i + 1) * I.width = i * I.width + I.width := by ring
    refine ⟨h2.trans r2, h3, h4.trans r4, ?_, ?_⟩
    · intro k hk
      have e2 : (i + 1 + m) * I.width = (i + (m + 1)) * I.width := by ring_nf
      have e3 : (i + 1) * I.width ≤ (i + 1 + m) * I.width :=
        Nat.mul_le_mul_right _ (by omega)
      rw [h5 k (by omega), r5 k (by omega)]
    · intro q c hq hc
      cases q with
      | zero =>
        have := r6 c hc
        simp only [Nat.add_zero, Nat.zero_mul] at this ⊢
        rw [h5 _ (by omega)]
        exact this
      | succ q =>
        have e2 : (i + (q + 1)) * I.width = (i + 1 + q) * I.width := by ring_nf
        have e3 : (i + 1) * I.width ≤ (i + 1 + q) * I.width :=
          Nat.mul_le_mul_right _ (by omega)
        rw [e2, h6 q c (by omega) hc, r5 _ (by omega), r1]
        congr 1
        ring

/-- What the decimation leaves in pixel `(i, j)` of the image. -/
theorem decimate_get {δ : Type} (buf : Nat → Nat) (S W : Nat) (I : vpImage vpRGBa δ)
    (i j : Nat) (hi : i < I.height) (hj : j < I.width) :
    (decimate buf S W I).getHeight = I.height ∧ (decimate buf S W I).getWidth = I.width ∧
    (decimate buf S W I).get i j =
      loopPixel buf (4 * (i * (S * I.width + W * (S - 1)) + j * S)) (I.get i j) := by
  obtain ⟨h2, h3, -, -, h6⟩ := decimateRows_spec buf S W I.getHeight 0 0 I
  refine ⟨h2, h3, ?_⟩
  have := h6 i j hi hj
  simp only [Nat.zero_add] at this
  unfold decimate vpImage.get
  rw [h3, this]
  congr 1
  ring


/-- The colour `acquire` on a driver with a handle and `scale != 1`: it returns,
the image has `nrows` rows and `ncols` columns, and pixel `(i, j)` holds the
three bytes at offset `4 * (i * (scale * ncols + W * (scale - 1)) + j * scale)`
of the converted buffer, `W` being the width the handle reports. -/
theorem acquireRGBa_decimated {δ : Type} (P : Platform) (d : vpIcCompGrabber)
    (fg : ICcomp2x) (I : vpImage vpRGBa δ) (hfg : d.framegrabber = some fg)
    (hs : d.scale ≠ 1) (i j : Nat) (hi : i < d.nrows) (hj : j < d.ncols) :
    ∃ g J p, acquireRGBa P d I = .ok (g, J) ∧
      J.getHeight = d.nrows ∧ J.getWidth = d.ncols ∧
      J.get i j =
        loopPixel
          (P.ConvertYCbCrToRGBA (fg.Acquire P).1.bitmap (P.GetHeight (fg.Acquire P).2)
            (P.GetWidth (fg.Acquire P).2))
          (4 * (i * (d.scale * d.ncols + P.GetWidth (fg.Acquire P).2 * (d.scale - 1))
                + j * d.scale)) p := by
  unfold acquireRGBa
  simp only [hfg, if_neg hs]
  by_cases hsz : I.getWidth ≠ d.ncols ∨ I.getHeight ≠ d.nrows
  · have hr : (I.resize P.freshRGBa d.nrows d.ncols).height = d.nrows ∧
        (I.resize P.freshRGBa d.nrows d.ncols).width = d.ncols := ⟨rfl, rfl⟩
    obtain ⟨a, b, c⟩ := decimate_get
      (P.ConvertYCbCrToRGBA (fg.Acquire P).1.bitmap (P.GetHeight (fg.Acquire P).2)
        (P.GetWidth (fg.Acquire P).2)) d.scale (P.GetWidth (fg.Acquire P).2)
      (I.resize P.freshRGBa d.nrows d.ncols) i j (by rw [hr.1]; exact hi)
      (by rw [hr.2]; exact hj)
    rw [if_pos hsz]
    rw [hr.1] at a
    rw [hr.2] at b c
    exact ⟨_, _, _, rfl, a, b, c⟩
  · have hr : I.height = d.nrows ∧ I.width = d.ncols := by
      unfold vpImage.getWidth vpImage.getHeight at hsz
      constructor
      · by_contra h
        exact hsz (Or.inr h)
      · by_contra h
        exact hsz (Or.inl h)
    obtain ⟨a, b, c⟩ := decimate_get
      (P.ConvertYCbCrToRGBA (fg.Acquire P).1.bitmap (P.GetHeight (fg.Acquire P).2)
        (P.GetWidth (fg.Acquire P).2)) d.scale (P.GetWidth (fg.Acquire P).2)
      I i j (by rw [hr.1]; exact hi) (by rw [hr.2]; exact hj)
    rw [if_neg hsz]
    rw [hr.1] at a
    rw [hr.2] at b c
    exact ⟨_, _, _, rfl, a, b, c⟩

/-- The colour `open` on a driver whose handle exists. -/
theorem openRGBa_of_handle {δ : Type} (P : Platform) (d : vpIcCompGrabber)
    (fg : ICcomp2x) (I : vpImage vpRGBa δ) (hfg : d.framegrabber = some fg) :
    openRGBa P d I =
      .ok ({ d with
              framegrabber := some (P.Init ((((P.fresh.SetDecimation 1).SetNBufs 1).SetDepth
                16).SetCbCrOrder ICCOMP_NORMAL_ORDER))
              ncols := P.GetWidth (P.Init ((((P.fresh.SetDecimation 1).SetNBufs 1).SetDepth
                16).SetCbCrOrder ICCOMP_NORMAL_ORDER)) / d.scale
              nrows := P.GetHeight (P.Init ((((P.fresh.SetDecimation 1).SetNBufs 1).SetDepth
                16).SetCbCrOrder ICCOMP_NORMAL_ORDER)) / d.scale
              init := true },
           I.resize P.freshRGBa
             (P.GetHeight (P.Init ((((P.fresh.SetDecimation 1).SetNBufs 1).SetDepth
                16).SetCbCrOrder ICCOMP_NORMAL_ORDER)) / d.scale)
             (P.GetWidth (P.Init ((((P.fresh.SetDecimation 1).SetNBufs 1).SetDepth
                16).SetCbCrOrder ICCOMP_NORMAL_ORDER)) / d.scale)) := by
  unfold openRGBa
  simp only [hfg]


/-- Construction, `open` and colour `acquire` on the sample board: the offset
read for pixel `(i, j)`. -/
theorem grabColour_pixel (H W S i j : Nat) (h1 : 1 < S) (h16 : S ≤ 16)
    (hi : i < H / S) (hj : j < W / S) :
    ∃ g I p, Sample.grabColour H W S = .ok (g, I) ∧
      I.getHeight = H / S ∧ I.getWidth = W / S ∧
      I.get i j =
        loopPixel (Sample.converted H W) (4 * (i * (S * (W / S) + W * (S - 1)) + j * S)) p := by
  have hmk := mk2_of_valid (Sample.board H W) Sample.rawMembers 2 S (by decide)
    (by omega) h16
  obtain ⟨g, J, p, hacq, hH, hW, hpix⟩ := acquireRGBa_decimated (Sample.board H W)
    { init := true
      framegrabber := some ((Sample.board H W).Init
        (((((Sample.board H W).fresh.SetDecimation 1).SetNBufs 1).SetDepth 16).SetCbCrOrder
          ICCOMP_NORMAL_ORDER))
      input := 2
      scale := S
      framerate := .framerate_25fps
      field := Sample.rawMembers.field
      ncols := W / S
      nrows := H / S }
    _ (Sample.colourImage.resize (Sample.board H W).freshRGBa (H / S) (W / S)) rfl
    (by dsimp only; omega) i j hi hj
  refine ⟨g, J, p, ?_, hH, hW, hpix⟩
  unfold Sample.grabColour
  rw [hmk]
  simp only [bind, Except.bind]
  rw [openRGBa_of_handle _ _ _ _ rfl]
  exact hacq

/-- The decimation evaluated on a small board of 4 rows and 3 columns, scale 2.
After `open` and `acquire` the image has 4/2 rows and 3/2 columns, and its
pixel (1, 0) holds bytes 0, 1, 2 of source pixel (1, 2), not of source pixel
(1*2, 0*2): the three channels differ from those of pixel (2, 0). -/
theorem decimation_small_board :
    ∃ g I, Sample.grabColour 4 3 2 = .ok (g, I) ∧
      I.getHeight = 4 / 2 ∧ I.getWidth = 3 / 2 ∧
      (I.get 1 0).B = Sample.sourceByte (Sample.converted 4 3) 3 1 2 0 ∧
      (I.get 1 0).G = Sample.sourceByte (Sample.converted 4 3) 3 1 2 1 ∧
      (I.get 1 0).R = Sample.sourceByte (Sample.converted 4 3) 3 1 2 2 ∧
      (I.get 1 0).B ≠ Sample.sourceByte (Sample.converted 4 3) 3 (1 * 2) (0 * 2) 0 ∧
      (I.get 1 0).G ≠ Sample.sourceByte (Sample.converted 4 3) 3 (1 * 2) (0 * 2) 1 ∧
      (I.get 1 0).R ≠ Sample.sourceByte (Sample.converted 4 3) 3 (1 * 2) (0 * 2) 2 := by
  refine ⟨_, _, rfl, ?_⟩
  decide

/-- Claim C1 at a width the scale does not divide: the board of 576 rows and
768 columns, scale 5. After `open` and `acquire` the image has 576/5 rows and
768/5 columns, and its pixel (1, 0) holds bytes 0, 1, 2 of source pixel
(4, 765), not of source pixel (1*5, 0*5): each of the three channels differs
from that of pixel (5, 0). -/
theorem C1_decimation_width_not_multiple :
    ∃ g I, Sample.grabColour 576 768 5 = .ok (g, I) ∧
      I.getHeight = 576 / 5 ∧ I.getWidth = 768 / 5 ∧
      (I.get 1 0).B = Sample.sourceByte (Sample.converted 576 768) 768 4 765 0 ∧
      (I.get 1 0).G = Sample.sourceByte (Sample.converted 576 768) 768 4 765 1 ∧
      (I.get 1 0).R = Sample.sourceByte (Sample.converted 576 768) 768 4 765 2 ∧
      (I.get 1 0).B ≠ Sample.sourceByte (Sample.converted 576 768) 768 (1 * 5) (0 * 5) 0 ∧
      (I.get 1 0).G ≠ Sample.sourceByte (Sample.converted 576 768) 768 (1 * 5) (0 * 5) 1 ∧
      (I.get 1 0).R ≠ Sample.sourceByte (Sample.converted 576 768) 768 (1 * 5) (0 * 5) 2 := by
  obtain ⟨g, I, p, hg, hH, hW, hp⟩ :=
    grabColour_pixel 576 768 5 1 0 (by decide) (by decide) (by decide) (by decide)
  refine ⟨g, I, hg, hH, hW, ?_⟩
  rw [hp]
  simp only [loopPixel]
  decide

/-! ## The dispatcher -/

open vpDisplay

/-- Claim C3, as the code has it. With no backend attached (`I.display == NULL`),
`display(I)` on a grey image returns normally and leaves the image as it was,
for every backend class; `display(I)` on a colour image and `getImage(I, Idest)`
from a grey or a colour image throw `notInitializedError`. -/
theorem C3_display_without_backend {σ ε : Type} (D : Backend σ ε)
    (Ig : vpImage Nat σ) (Ic Idest : vpImage vpRGBa σ) :
    displayGrey D { Ig with display := none } = .ok { Ig with display := none } ∧
    displayRGBa D { Ic with display := none } = .error .notInitializedError ∧
    getImage D { Ig with display := none } Idest = .error .notInitializedError ∧
    getImage D { Ic with display := none } Idest = .error .notInitializedError :=
  ⟨rfl, rfl, rfl, rfl⟩

theorem rethrow_eq {ε β : Type} (body : Except (Thrown ε) β) : rethrow body = body := by
  cases body <;> rfl

theorem map_map_click {ε β γ κ : Type} (op : Except (Thrown ε) β) (f : β → γ) (g : γ → κ) :
    (op.map f).map g = op.map (fun b => g (f b)) := by
  cases op <;> rfl

/-- Claim C6. Every `_uv` call of the dispatcher is the call without `_uv` with
each coordinate pair swapped (`i = v`, `j = u`; width and height of a rectangle
stay in place), and `getClick_uv`, `getClickUp_uv` are `getClick`, `getClickUp`
called with `(v, u)` whose row result goes to `v` and column result to `u`.
`I` is an image of either pixel type; `displayRectangle_uv` exists for grey
images only. -/
theorem C6_uv_is_transposed {α σ ε : Type} (D : Backend σ ε) (I : vpImage α σ)
    (Ig : vpImage Nat σ) :
    (∀ u v col, displayPoint_uv D I u v col = displayPoint D I v u col) ∧
    (∀ u v size col, displayCross_uv D I u v size col = displayCross D I v u size col) ∧
    (∀ u v size col,
      displayCrossLarge_uv D I u v size col = displayCrossLarge D I v u size col) ∧
    (∀ u v r col, displayCircle_uv D I u v r col = displayCircle D I v u r col) ∧
    (∀ u v str c, displayCharString_uv D I u v str c = displayCharString D I v u str c) ∧
    (∀ u v width height col fill e,
      displayRectangle_uv D Ig u v width height col fill e =
        displayRectangle D Ig v u width height col fill e) ∧
    (∀ u1 v1 u2 v2 col e,
      displayLine_uv D I u1 v1 u2 v2 col e = displayLine D I v1 u1 v2 u2 col e) ∧
    (∀ u1 v1 u2 v2 col e2,
      displayDotLine_uv D I u1 v1 u2 v2 col e2 = displayDotLine D I v1 u1 v2 u2 col e2) ∧
    (∀ u1 v1 u2 v2 col L l,
      displayArrow_uv D I u1 v1 u2 v2 col L l = displayArrow D I v1 u1 v2 u2 col L l) ∧
    (∀ u v blocking,
      getClick_uv D I u v blocking =
        (getClick D I v u blocking).map (fun r => (Click.toUV r.1, r.2))) ∧
    (∀ u v button blocking,
      getClickButton_uv D I u v button blocking =
        (getClickButton D I v u button blocking).map
          (fun r => (ClickButton.toUV r.1, r.2))) ∧
    (∀ u v button blocking,
      getClickUp_uv D I u v button blocking =
        (getClickUp D I v u button blocking).map
          (fun r => (ClickButton.toUV r.1, r.2))) := by
  refine ⟨fun _ _ _ => rfl, fun _ _ _ _ => rfl, fun _ _ _ _ => rfl, fun _ _ _ _ => rfl,
    fun _ _ _ _ => rfl, fun _ _ _ _ _ _ _ => rfl, fun _ _ _ _ _ _ => rfl,
    fun _ _ _ _ _ _ => rfl, fun _ _ _ _ _ _ _ => rfl, ?_, ?_, ?_⟩
  · intro u v blocking
    unfold getClick_uv getClick
    rw [rethrow_eq, rethrow_eq]
    cases I.display with
    | none => rfl
    | some s =>
      dsimp only
      rw [map_map_click]
      rfl
  · intro u v button blocking
    unfold getClickButton_uv getClickButton
    rw [rethrow_eq, rethrow_eq]
    cases I.display with
    | none => rfl
    | some s =>
      dsimp only
      rw [map_map_click]
      rfl
  · intro u v button blocking
    unfold getClickUp_uv getClickUp
    rw [rethrow_eq, rethrow_eq]
    cases I.display with
    | none => rfl
    | some s =>
      dsimp only
      rw [map_map_click]
      rfl

/-- Claim C7. With no backend attached, every drawing call of the dispatcher
returns normally and leaves the image as it was, whatever the backend class:
no exception, and no operation of any backend has a part in the result. `I` is
an image of either pixel type; the `displayRectangle` calls exist for grey
images only. -/
theorem C7_drawing_without_backend {α σ ε : Type} (D : Backend σ ε) (I : vpImage α σ)
    (Ig : vpImage Nat σ) (hI : I.display = none) (hIg : Ig.display = none) :
    (∀ t, displayTitle D I t = .ok I) ∧
    (∀ i j col, displayPoint D I i j col = .ok I) ∧
    (∀ i j size col, displayCross D I i j size col = .ok I) ∧
    (∀ i j size col, displayCrossLarge D I i j size col = .ok I) ∧
    (∀ i j r col, displayCircle D I i j r col = .ok I) ∧
    (∀ i1 j1 i2 j2 col e, displayLine D I i1 j1 i2 j2 col e = .ok I) ∧
    (∀ i1 j1 i2 j2 col e2, displayDotLine D I i1 j1 i2 j2 col e2 = .ok I) ∧
    (∀ i1 j1 i2 j2 col L l, displayArrow D I i1 j1 i2 j2 col L l = .ok I) ∧
    (∀ i j width height col fill e,
      displayRectangle D Ig i j width height col fill e = .ok Ig) ∧
    (∀ rect col fill e, displayRectangleRect D Ig rect col fill e = .ok Ig) ∧
    (∀ i j str c, displayCharString D I i j str c = .ok I) ∧
    flush D I = .ok I ∧
    close D I = .ok I ∧
    (∀ u v col, displayPoint_uv D I u v col = .ok I) ∧
    (∀ u v size col, displayCross_uv D I u v size col = .ok I) ∧
    (∀ u v size col, displayCrossLarge_uv D I u v size col = .ok I) ∧
    (∀ u v r col, displayCircle_uv D I u v r col = .ok I) ∧
    (∀ u1 v1 u2 v2 col e, displayLine_uv D I u1 v1 u2 v2 col e = .ok I) ∧
    (∀ u1 v1 u2 v2 col e2, displayDotLine_uv D I u1 v1 u2 v2 col e2 = .ok I) ∧
    (∀ u1 v1 u2 v2 col L l, displayArrow_uv D I u1 v1 u2 v2 col L l = .ok I) ∧
    (∀ u v width height col fill e,
      displayRectangle_uv D Ig u v width height col fill e = .ok Ig) ∧
    (∀ u v str c, displayCharString_uv D I u v str c = .ok I) := by
  obtain ⟨h, w, b, disp⟩ := I
  obtain ⟨hg, wg, bg, dispg⟩ := Ig
  dsimp only at hI hIg
  subst hI
  subst hIg
  exact ⟨fun _ => rfl, fun _ _ _ => rfl, fun _ _ _ _ => rfl, fun _ _ _ _ => rfl,
    fun _ _ _ _ => rfl, fun _ _ _ _ _ _ => rfl, fun _ _ _ _ _ _ => rfl,
    fun _ _ _ _ _ _ _ => rfl, fun _ _ _ _ _ _ _ => rfl, fun _ _ _ _ => rfl,
    fun _ _ _ _ => rfl, rfl, rfl, fun _ _ _ => rfl, fun _ _ _ _ => rfl,
    fun _ _ _ _ => rfl, fun _ _ _ _ => rfl, fun _ _ _ _ _ _ => rfl,
    fun _ _ _ _ _ _ => rfl, fun _ _ _ _ _ _ _ => rfl, fun _ _ _ _ _ _ _ => rfl,
    fun _ _ _ _ => rfl⟩

/-- Claim C7 at concrete inputs: the empty colour and grey images without a
display, against the counting backend. -/
theorem C7_drawing_without_backend_witness :
    displayCross Sample.counting Sample.colourImage 3 4 0 1 = .ok Sample.colourImage ∧
    displayRectangle_uv Sample.counting Sample.greyImage 3 4 5 6 1 true 1 =
      .ok Sample.greyImage ∧
    flush Sample.counting Sample.colourImage = .ok Sample.colourImage := by
  have h := C7_drawing_without_backend Sample.counting Sample.colourImage
    Sample.greyImage rfl rfl
  exact ⟨h.2.2.1 3 4 0 1,
    h.2.2.2.2.2.2.2.2.2.2.2.2.2.2.2.2.2.2.2.2.1 3 4 5 6 1 true 1,
    h.2.2.2.2.2.2.2.2.2.2.2.1⟩

theorem passesOn_rethrow_map {ε β γ : Type} (op : Except (Thrown ε) β) (wrap : β → γ) :
    PassesOn op (rethrow (op.map wrap)) wrap := by
  constructor
  · intro e h
    rw [h]
    rfl
  · intro b h
    rw [h]
    rfl

/-- Claim C8. With a backend attached (`I.display` points to a backend in state
`s`), every call of the dispatcher passes on what the backend operation did:
when the operation throws `e` the call throws the same `e`, and when it returns
the call returns its result (the new state of the backend, with the values the
operation left in the reference arguments). `I` is an image of either pixel
type, `Ig` a grey and `Ic` a colour image. -/
theorem C8_backend_passes_through {α σ ε : Type} (D : Backend σ ε) (I : vpImage α σ)
    (Ig : vpImage Nat σ) (Ic : vpImage vpRGBa σ) (s sg sc : σ)
    (hI : I.display = some s) (hIg : Ig.display = some sg) (hIc : Ic.display = some sc) :
    (∀ t, PassesOn (D.flushTitle t s) (displayTitle D I t) (attach I)) ∧
    PassesOn (D.displayImageGrey Ig sg) (displayGrey D Ig) (attach Ig) ∧
    PassesOn (D.displayImageRGBa Ic sc) (displayRGBa D Ic) (attach Ic) ∧
    (∀ Idest, PassesOn (D.getImage Idest s) (getImage D I Idest)
      (fun r => (r.1, attach I r.2))) ∧
    (∀ i j col, PassesOn (D.displayPoint i j col s) (displayPoint D I i j col) (attach I)) ∧
    (∀ i j size col,
      PassesOn (D.displayCross i j size col s) (displayCross D I i j size col) (attach I)) ∧
    (∀ i j size col, PassesOn (D.displayCrossLarge i j size col s)
      (displayCrossLarge D I i j size col) (attach I)) ∧
    (∀ i j r col,
      PassesOn (D.displayCircle i j r col s) (displayCircle D I i j r col) (attach I)) ∧
    (∀ i1 j1 i2 j2 col e, PassesOn (D.displayLine i1 j1 i2 j2 col e s)
      (displayLine D I i1 j1 i2 j2 col e) (attach I)) ∧
    (∀ i1 j1 i2 j2 col e2, PassesOn (D.displayDotLine i1 j1 i2 j2 col e2 s)
      (displayDotLine D I i1 j1 i2 j2 col e2) (attach I)) ∧
    (∀ i1 j1 i2 j2 col L l, PassesOn (D.displayArrow i1 j1 i2 j2 col L l s)
      (displayArrow D I i1 j1 i2 j2 col L l) (attach I)) ∧
    (∀ i j width height col fill e,
      PassesOn (D.displayRectangle i j width height col fill e sg)
        (displayRectangle D Ig i j width height col fill e) (attach Ig)) ∧
    (∀ rect col fill e, PassesOn (D.displayRectangleRect rect col fill e sg)
      (displayRectangleRect D Ig rect col fill e) (attach Ig)) ∧
    (∀ i j str c, PassesOn (D.displayCharString i j str c s)
      (displayCharString D I i j str c) (attach I)) ∧
    PassesOn (D.flushDisplay s) (flush D I) (attach I) ∧
    PassesOn (D.closeDisplay s) (close D I) (attach I) ∧
    (∀ i j blocking, PassesOn (D.getClick i j blocking s) (getClick D I i j blocking)
      (fun r => (r.1, attach I r.2))) ∧
    (∀ i j button blocking, PassesOn (D.getClickButton i j button blocking s)
      (getClickButton D I i j button blocking) (fun r => (r.1, attach I r.2))) ∧
    (∀ blocking, PassesOn (D.getClickWait blocking s) (getClickWait D I blocking)
      (fun r => (r.1, attach I r.2))) ∧
    (∀ i j button blocking, PassesOn (D.getClickUp i j button blocking s)
      (getClickUp D I i j button blocking) (fun r => (r.1, attach I r.2))) ∧
    (∀ u v col,
      PassesOn (D.displayPoint v u col s) (displayPoint_uv D I u v col) (attach I)) ∧
    (∀ u v size col, PassesOn (D.displayCross v u size col s)
      (displayCross_uv D I u v size col) (attach I)) ∧
    (∀ u v size col, PassesOn (D.displayCrossLarge v u size col s)
      (displayCrossLarge_uv D I u v size col) (attach I)) ∧
    (∀ u v r col, PassesOn (D.displayCircle v u r col s)
      (displayCircle_uv D I u v r col) (attach I)) ∧
    (∀ u1 v1 u2 v2 col e, PassesOn (D.displayLine v1 u1 v2 u2 col e s)
      (displayLine_uv D I u1 v1 u2 v2 col e) (attach I)) ∧
    (∀ u1 v1 u2 v2 col e2, PassesOn (D.displayDotLine v1 u1 v2 u2 col e2 s)
      (displayDotLine_uv D I u1 v1 u2 v2 col e2) (attach I)) ∧
    (∀ u1 v1 u2 v2 col L l, PassesOn (D.displayArrow v1 u1 v2 u2 col L l s)
      (displayArrow_uv D I u1 v1 u2 v2 col L l) (attach I)) ∧
    (∀ u v width height col fill e,
      PassesOn (D.displayRectangle v u width height col fill e sg)
        (displayRectangle_uv D Ig u v width height col fill e) (attach Ig)) ∧
    (∀ u v str c, PassesOn (D.displayCharString v u str c s)
      (displayCharString_uv D I u v str c) (attach I)) ∧
    (∀ u v blocking, PassesOn (D.getClick v u blocking s) (getClick_uv D I u v blocking)
      (fun r => (Click.toUV r.1, attach I r.2))) ∧
    (∀ u v button blocking, PassesOn (D.getClickButton v u button blocking s)
      (getClickButton_uv D I u v button blocking)
      (fun r => (ClickButton.toUV r.1, attach I r.2))) ∧
    (∀ u v button blocking, PassesOn (D.getClickUp v u button blocking s)
      (getClickUp_uv D I u v button blocking)
      (fun r => (ClickButton.toUV r.1, attach I r.2))) := by
  obtain ⟨h, w, b, disp⟩ := I
  obtain ⟨hg, wg, bg, dispg⟩ := Ig
  obtain ⟨hc, wc, bc, dispc⟩ := Ic
  dsimp only at hI hIg hIc
  subst hI
  subst hIg
  subst hIc
  exact ⟨fun _ => passesOn_rethrow_map _ _, passesOn_rethrow_map _ _,
    passesOn_rethrow_map _ _, fun _ => passesOn_rethrow_map _ _,
    fun _ _ _ => passesOn_rethrow_map _ _, fun _ _ _ _ => passesOn_rethrow_map _ _,
    fun _ _ _ _ => passesOn_rethrow_map _ _, fun _ _ _ _ => passesOn_rethrow_map _ _,
    fun _ _ _ _ _ _ => passesOn_rethrow_map _ _,
    fun _ _ _ _ _ _ => passesOn_rethrow_map _ _,
    fun _ _ _ _ _ _ _ => passesOn_rethrow_map _ _,
    fun _ _ _ _ _ _ _ => passesOn_rethrow_map _ _,
    fun _ _ _ _ => passesOn_rethrow_map _ _, fun _ _ _ _ => passesOn_rethrow_map _ _,
    passesOn_rethrow_map _ _, passesOn_rethrow_map _ _,
    fun _ _ _ => passesOn_rethrow_map _ _, fun _ _ _ _ => passesOn_rethrow_map _ _,
    fun _ => passesOn_rethrow_map _ _, fun _ _ _ _ => passesOn_rethrow_map _ _,
    fun _ _ _ => passesOn_rethrow_map _ _, fun _ _ _ _ => passesOn_rethrow_map _ _,
    fun _ _ _ _ => passesOn_rethrow_map _ _, fun _ _ _ _ => passesOn_rethrow_map _ _,
    fun _ _ _ _ _ _ => passesOn_rethrow_map _ _,
    fun _ _ _ _ _ _ => passesOn_rethrow_map _ _,
    fun _ _ _ _ _ _ _ => passesOn_rethrow_map _ _,
    fun _ _ _ _ _ _ _ => passesOn_rethrow_map _ _,
    fun _ _ _ _ => passesOn_rethrow_map _ _, fun _ _ _ => passesOn_rethrow_map _ _,
    fun _ _ _ _ => passesOn_rethrow_map _ _, fun _ _ _ _ => passesOn_rethrow_map _ _⟩

/-- Claim C8 at concrete inputs: images shown on the counting backend. A cross
of size 0 and a non-blocking click query make the backend throw `other 7`, and
the dispatcher throws `other 7`; a cross of size 5 and a blocking click query
succeed, and the dispatcher returns what the backend returned. -/
theorem C8_backend_passes_through_witness :
    displayCross Sample.counting Sample.shownColour 3 4 0 1 = .error (.other 7) ∧
    displayCross Sample.counting Sample.shownColour 3 4 5 1 =
      .ok (attach Sample.shownColour 1) ∧
    getClick Sample.counting Sample.shownColour 0 0 false = .error (.other 7) ∧
    getClick Sample.counting Sample.shownColour 0 0 true =
      .ok ({ ret := true, i := 11, j := 22 }, attach Sample.shownColour 1) := by
  have h := C8_backend_passes_through Sample.counting Sample.shownColour
    Sample.shownGrey Sample.shownColour 0 0 0 rfl rfl rfl
  obtain ⟨-, -, -, -, -, hcross, -, -, -, -, -, -, -, -, -, -, hclick, -⟩ := h
  exact ⟨(hcross 3 4 0 1).1 _ rfl, (hcross 3 4 5 1).2 _ rfl,
    (hclick 0 0 false).1 _ rfl, (hclick 0 0 true).2 _ rfl⟩

/-! ## The point feature -/

open vpFeaturePoint

/-- Claim C9. For every `x`, `y` and every `Z ≠ 0`, `interaction` on the point
feature built from `(x, y, Z)` gives, for `FEATURE_ALL` and for `selectX() |
selectY()`, the 2 x 6 matrix of the x-row `[-1/Z, 0, x/Z, x*y, -(1+x²), y]`
above the y-row `[0, -1/Z, y/Z, 1+y², -x*y, -x]`, for `selectX()` the 1 x 6
matrix of the x-row, and for `selectY()` the 1 x 6 matrix of the y-row; for
every `select` the matrix has 6 columns and as many rows as coordinates
selected. -/
theorem C9_interaction (x y Z : ℚ) (hZ : Z ≠ 0) :
    interaction (buildFrom x y Z) FEATURE_ALL =
      some { rowNum := 2, colNum := 6,
             rows := [[-1 / Z, 0, x / Z, x * y, -(1 + x ^ 2), y],
                      [0, -1 / Z, y / Z, 1 + y ^ 2, -x * y, -x]] } ∧
    interaction (buildFrom x y Z) (selectX ||| selectY) =
      some { rowNum := 2, colNum := 6,
             rows := [[-1 / Z, 0, x / Z, x * y, -(1 + x ^ 2), y],
                      [0, -1 / Z, y / Z, 1 + y ^ 2, -x * y, -x]] } ∧
    interaction (buildFrom x y Z) selectX =
      some { rowNum := 1, colNum := 6,
             rows := [[-1 / Z, 0, x / Z, x * y, -(1 + x ^ 2), y]] } ∧
    interaction (buildFrom x y Z) selectY =
      some { rowNum := 1, colNum := 6,
             rows := [[0, -1 / Z, y / Z, 1 + y ^ 2, -x * y, -x]] } ∧
    (∀ select, ∃ L, interaction (buildFrom x y Z) select = some L ∧ L.colNum = 6 ∧
      L.rows.length = L.rowNum ∧ (∀ r ∈ L.rows, r.length = 6) ∧
      L.rowNum = (if FEATURE_LINE 0 &&& select ≠ 0 then 1 else 0) +
                 (if FEATURE_LINE 1 &&& select ≠ 0 then 1 else 0)) := by
  have hx : FEATURE_LINE 0 &&& FEATURE_ALL ≠ 0 := by decide
  have hy : FEATURE_LINE 1 &&& FEATURE_ALL ≠ 0 := by decide
  have hxx : FEATURE_LINE 0 &&& selectX ≠ 0 := by decide
  have hyx : ¬ FEATURE_LINE 1 &&& selectX ≠ 0 := by decide
  have hxy : ¬ FEATURE_LINE 0 &&& selectY ≠ 0 := by decide
  have hyy : FEATURE_LINE 1 &&& selectY ≠ 0 := by decide
  have hxb : FEATURE_LINE 0 &&& (selectX ||| selectY) ≠ 0 := by decide
  have hyb : FEATURE_LINE 1 &&& (selectX ||| selectY) ≠ 0 := by decide
  refine ⟨?_, ?_, ?_, ?_, ?_⟩
  · simp only [interaction, buildFrom, if_neg hZ, if_pos hx, if_pos hy]
    rfl
  · simp only [interaction, buildFrom, if_neg hZ, if_pos hxb, if_pos hyb]
    rfl
  · simp only [interaction, buildFrom, if_neg hZ, if_pos hxx, if_neg hyx]
    rfl
  · simp only [interaction, buildFrom, if_neg hZ, if_neg hxy, if_pos hyy]
    rfl
  · intro select
    simp only [interaction, buildFrom, if_neg hZ]
    by_cases h0 : FEATURE_LINE 0 &&& select ≠ 0 <;>
      by_cases h1 : FEATURE_LINE 1 &&& select ≠ 0 <;>
      simp [h0, h1, vpMatrix.stackRow, vpMatrix.empty, xRow, yRow]

/-- Claim C9 at a concrete input: the point feature built from `(1, 2, 4)`. -/
theorem C9_interaction_witness :
    interaction (buildFrom 1 2 4) FEATURE_ALL =
      some { rowNum := 2, colNum := 6,
             rows := [[-1 / 4, 0, 1 / 4, 1 * 2, -(1 + 1 ^ 2), 2],
                      [0, -1 / 4, 2 / 4, 1 + 2 ^ 2, -1 * 2, -1]] } ∧
    interaction (buildFrom 1 2 4) selectX =
      some { rowNum := 1, colNum := 6,
             rows := [[-1 / 4, 0, 1 / 4, 1 * 2, -(1 + 1 ^ 2), 2]] } :=
  ⟨(C9_interaction 1 2 4 (by norm_num)).1, (C9_interaction 1 2 4 (by norm_num)).2.2.1⟩

/-- Claim C10. For every two point features `(x1, y1, Z1)` and `(x2, y2, Z2)`,
`error(other, FEATURE_ALL)` is `[x1-x2, y1-y2]`, `error(other, selectX())` is
`[x1-x2]` and `error(other, selectY())` is `[y1-y2]`; for every `select` the
result has one component for each coordinate selected. -/
theorem C10_error (x1 y1 Z1 x2 y2 Z2 : ℚ) :
    error (buildFrom x1 y1 Z1) (buildFrom x2 y2 Z2) FEATURE_ALL = [x1 - x2, y1 - y2] ∧
    error (buildFrom x1 y1 Z1) (buildFrom x2 y2 Z2) selectX = [x1 - x2] ∧
    error (buildFrom x1 y1 Z1) (buildFrom x2 y2 Z2) selectY = [y1 - y2] ∧
    (∀ select, (error (buildFrom x1 y1 Z1) (buildFrom x2 y2 Z2) select).length =
      (if FEATURE_LINE 0 &&& select ≠ 0 then 1 else 0) +
      (if FEATURE_LINE 1 &&& select ≠ 0 then 1 else 0)) := by
  have hx : FEATURE_LINE 0 &&& FEATURE_ALL ≠ 0 := by decide
  have hy : FEATURE_LINE 1 &&& FEATURE_ALL ≠ 0 := by decide
  have hxx : FEATURE_LINE 0 &&& selectX ≠ 0 := by decide
  have hyx : ¬ FEATURE_LINE 1 &&& selectX ≠ 0 := by decide
  have hxy : ¬ FEATURE_LINE 0 &&& selectY ≠ 0 := by decide
  have hyy : FEATURE_LINE 1 &&& selectY ≠ 0 := by decide
  refine ⟨?_, ?_, ?_, ?_⟩
  · simp only [error, buildFrom, if_pos hx, if_pos hy]
    rfl
  · simp only [error, buildFrom, if_pos hxx, if_neg hyx]
    rfl
  · simp only [error, buildFrom, if_neg hxy, if_pos hyy]
    rfl
  · intro select
    simp only [error, buildFrom]
    by_cases h0 : FEATURE_LINE 0 &&& select ≠ 0 <;>
      by_cases h1 : FEATURE_LINE 1 &&& select ≠ 0 <;>
      simp [h0, h1]

/-- Claim C11. For every `a`, `b`, `c`, after `set_xyZ(a, b, c)` on any point
feature `get_x()`, `get_y()` and `get_Z()` return `a`, `b` and `c`; each of
`set_x`, `set_y`, `set_Z` changes the value read by its own getter to the value
given and leaves what the two other getters read as it was. -/
theorem C11_setters_getters (s : vpFeaturePoint) (a b c : ℚ) :
    ((s.set_xyZ a b c).get_x = a ∧ (s.set_xyZ a b c).get_y = b ∧
      (s.set_xyZ a b c).get_Z = c) ∧
    ((s.set_x a).get_x = a ∧ (s.set_x a).get_y = s.get_y ∧ (s.set_x a).get_Z = s.get_Z) ∧
    ((s.set_y b).get_x = s.get_x ∧ (s.set_y b).get_y = b ∧ (s.set_y b).get_Z = s.get_Z) ∧
    ((s.set_Z c).get_x = s.get_x ∧ (s.set_Z c).get_y = s.get_y ∧ (s.set_Z c).get_Z = c) :=
  ⟨⟨rfl, rfl, rfl⟩, ⟨rfl, rfl, rfl⟩, ⟨rfl, rfl, rfl⟩, ⟨rfl, rfl, rfl⟩⟩

/-! ## The driver: construction and `open` -/

/-- When the two-argument constructor throws `settingError`. -/
theorem mk2_settingError_iff (P : Platform) (raw : vpIcCompGrabber) (_input _scale : Nat) :
    mk2 P raw _input _scale = .error (.thrown .settingError) ↔
      (_input > 3 ∨ _scale < 1 ∨ _scale > 16) := by
  by_cases hi : _input > 3
  · have h : mk2 P raw _input _scale = .error (.thrown .settingError) := by
      unfold mk2
      simp only []
      rw [(setInput_settingError_iff _ _input).2 hi]
      rfl
    exact ⟨fun _ => Or.inl hi, fun _ => h⟩
  · by_cases hs : _scale < 1 ∨ _scale > 16
    · have h : mk2 P raw _input _scale = .error (.thrown .settingError) := by
        unfold mk2
        simp only []
        rw [setInput_of_handle _ P.fresh _input rfl (by omega)]
        simp only [bind, Except.bind]
        rw [(setScale_settingError_iff _ _scale).2 hs]
      exact ⟨fun _ => Or.inr hs, fun _ => h⟩
    · constructor
      · intro h
        rw [mk2_of_valid P raw _input _scale (by omega) (by omega) (by omega)] at h
        cases h
      · intro h
        rcases h with h | h
        · exact absurd h hi
        · exact absurd h hs

/-- Claim C17. The default constructor returns a driver with input 2, scale 2,
framerate 25fps and `init == false` (its handle is a new one with camera 2 and
decimation 2); the constructor `vpIcCompGrabber(_input, _scale)` throws
`settingError` exactly when `_input > 3` or `_scale` is outside `[1,16]`, and
otherwise returns a driver with framerate 25fps, the given input and scale and
`init == false`. -/
theorem C17_constructors (P : Platform) (raw : vpIcCompGrabber) (_input _scale : Nat) :
    mk0 P raw =
      .ok { init := false
            framegrabber := some ((P.fresh.SetCamera 2).SetDecimation 2)
            input := 2
            scale := 2
            framerate := .framerate_25fps
            field := raw.field
            ncols := raw.ncols
            nrows := raw.nrows } ∧
    (mk2 P raw _input _scale = .error (.thrown .settingError) ↔
      (_input > 3 ∨ _scale < 1 ∨ _scale > 16)) ∧
    (¬ (_input > 3 ∨ _scale < 1 ∨ _scale > 16) →
      ∃ d, mk2 P raw _input _scale = .ok d ∧ d.framerate = .framerate_25fps ∧
        d.input = _input ∧ d.scale = _scale ∧ d.init = false) := by
  refine ⟨?_, mk2_settingError_iff P raw _input _scale, ?_⟩
  · exact mk2_of_valid P raw 2 2 (by decide) (by decide) (by decide)
  · intro h
    exact ⟨_, mk2_of_valid P raw _input _scale (by omega) (by omega) (by omega),
      rfl, rfl, rfl, rfl⟩

/-- Claim C17 at concrete inputs: the constructors on the sample board, with
arguments `(3, 16)`, `(4, 2)` and `(2, 17)`. -/
theorem C17_constructors_witness :
    (∃ d, mk2 (Sample.board 576 768) Sample.rawMembers 3 16 = .ok d ∧
      d.framerate = .framerate_25fps ∧ d.input = 3 ∧ d.scale = 16 ∧ d.init = false) ∧
    mk2 (Sample.board 576 768) Sample.rawMembers 4 2 = .error (.thrown .settingError) ∧
    mk2 (Sample.board 576 768) Sample.rawMembers 2 17 = .error (.thrown .settingError) :=
  ⟨(C17_constructors (Sample.board 576 768) Sample.rawMembers 3 16).2.2 (by decide),
   (C17_constructors (Sample.board 576 768) Sample.rawMembers 4 2).2.1.2 (by decide),
   (C17_constructors (Sample.board 576 768) Sample.rawMembers 2 17).2.1.2 (by decide)⟩

/-- The grey `open` on a driver whose handle exists. -/
theorem openGrey_of_handle {δ : Type} (P : Platform) (d : vpIcCompGrabber)
    (fg : ICcomp2x) (I : vpImage Nat δ) (hfg : d.framegrabber = some fg) :
    openGrey P d I =
      .ok ({ d with
              framegrabber := some (P.Init
                (((if fg.GetDecimation = 1 then fg.SetNBufs 1 else fg.SetNBufs 2).SetDepth
                  8).SetCbCrOrder ICCOMP_NORMAL_ORDER))
              ncols := P.GetWidth (P.Init
                (((if fg.GetDecimation = 1 then fg.SetNBufs 1 else fg.SetNBufs 2).SetDepth
                  8).SetCbCrOrder ICCOMP_NORMAL_ORDER))
              nrows := P.GetHeight (P.Init
                (((if fg.GetDecimation = 1 then fg.SetNBufs 1 else fg.SetNBufs 2).SetDepth
                  8).SetCbCrOrder ICCOMP_NORMAL_ORDER))
              init := true },
           I.resize P.freshGrey
             (P.GetHeight (P.Init
                (((if fg.GetDecimation = 1 then fg.SetNBufs 1 else fg.SetNBufs 2).SetDepth
                  8).SetCbCrOrder ICCOMP_NORMAL_ORDER)))
             (P.GetWidth (P.Init
                (((if fg.GetDecimation = 1 then fg.SetNBufs 1 else fg.SetNBufs 2).SetDepth
                  8).SetCbCrOrder ICCOMP_NORMAL_ORDER)))) := by
  unfold openGrey
  simp only [hfg]

/-- Claim C12. On a driver with a handle and a scale `S` in `[1,16]`, `open()`
for a colour image hands to `Init()` a handle with decimation 1, one buffer and
depth 16; with `H` and `W` the height and width that handle reports after
`Init()`, it records `nrows = H/S` and `ncols = W/S`, gives the image `nrows`
rows and `ncols` columns, sets `init` and leaves `input`, `scale`, `framerate`
and `field` as they were. -/
theorem C12_open_colour {δ : Type} (P : Platform) (d : vpIcCompGrabber) (fg : ICcomp2x)
    (I : vpImage vpRGBa δ) (hfg : d.framegrabber = some fg)
    (_h1 : 1 ≤ d.scale) (_h16 : d.scale ≤ 16) :
    ∃ fg0 d1 I1, openRGBa P d I = .ok (d1, I1) ∧
      fg0.decimation = 1 ∧ fg0.nbufs = 1 ∧ fg0.depth = 16 ∧
      fg0.cbCrOrder = ICCOMP_NORMAL_ORDER ∧
      d1.framegrabber = some (P.Init fg0) ∧
      d1.nrows = P.GetHeight (P.Init fg0) / d.scale ∧
      d1.ncols = P.GetWidth (P.Init fg0) / d.scale ∧
      I1.getHeight = d1.nrows ∧ I1.getWidth = d1.ncols ∧ I1.display = I.display ∧
      d1.init = true ∧
      d1.input = d.input ∧ d1.scale = d.scale ∧ d1.framerate = d.framerate ∧
      d1.field = d.field :=
  ⟨_, _, _, openRGBa_of_handle P d fg I hfg, rfl, rfl, rfl, rfl, rfl, rfl, rfl, rfl, rfl,
    rfl, rfl, rfl, rfl, rfl, rfl⟩

/-- Claim C12 at a concrete input: a driver built with input 2 and scale 5 on
the board of 576 rows and 768 columns, then `open` for a colour image. -/
theorem C12_open_colour_witness :
    ∃ d, mk2 (Sample.board 576 768) Sample.rawMembers 2 5 = .ok d ∧
      ∃ fg0 d1 I1, openRGBa (Sample.board 576 768) d Sample.colourImage = .ok (d1, I1) ∧
        fg0.decimation = 1 ∧ fg0.nbufs = 1 ∧ fg0.depth = 16 ∧
        fg0.cbCrOrder = ICCOMP_NORMAL_ORDER ∧
        d1.framegrabber = some ((Sample.board 576 768).Init fg0) ∧
        d1.nrows = 576 / 5 ∧ d1.ncols = 768 / 5 ∧
        I1.getHeight = d1.nrows ∧ I1.getWidth = d1.ncols ∧
        I1.display = Sample.colourImage.display ∧ d1.init = true ∧
        d1.input = 2 ∧ d1.scale = 5 ∧ d1.framerate = .framerate_25fps ∧
        d1.field = Sample.rawMembers.field :=
  ⟨_, rfl, C12_open_colour (Sample.board 576 768) _ _ Sample.colourImage rfl
    (by decide) (by decide)⟩

/-- Claim C13, as the code has it. After `close()` the handle is `NULL`, and
`open()` for a colour image on that driver does not make a new handle: its test
`framegrabber != NULL` fails, and the next statement calls `SetDecimation`
through the `NULL` pointer. -/
theorem C13_open_after_close {δ : Type} (P : Platform) (d : vpIcCompGrabber)
    (I : vpImage vpRGBa δ) :
    (vpIcCompGrabber.close d).framegrabber = none ∧
    openRGBa P (vpIcCompGrabber.close d) I = .error .nullHandle := by
  have h : (vpIcCompGrabber.close d).framegrabber = none := by
    unfold vpIcCompGrabber.close
    cases hfg : d.framegrabber with
    | none => simp [hfg]
    | some fg => rfl
  refine ⟨h, ?_⟩
  unfold openRGBa
  simp only [h]

/-- Claim C14. On a driver with a handle, `open()` for a grey image hands to
`Init()` the handle with one buffer when its decimation is 1 and two buffers
otherwise, with depth 8 and with camera and decimation as they were; it records
as `nrows` and `ncols` the height and width the handle reports after `Init()`,
gives the image that size, sets `init` and leaves `input`, `scale`, `framerate`
and `field` as they were. -/
theorem C14_open_grey {δ : Type} (P : Platform) (d : vpIcCompGrabber) (fg : ICcomp2x)
    (I : vpImage Nat δ) (hfg : d.framegrabber = some fg) :
    ∃ fg0 d1 I1, openGrey P d I = .ok (d1, I1) ∧
      fg0.nbufs = (if fg.decimation = 1 then 1 else 2) ∧ fg0.depth = 8 ∧
      fg0.cbCrOrder = ICCOMP_NORMAL_ORDER ∧
      fg0.decimation = fg.decimation ∧ fg0.camera = fg.camera ∧
      d1.framegrabber = some (P.Init fg0) ∧
      d1.nrows = P.GetHeight (P.Init fg0) ∧ d1.ncols = P.GetWidth (P.Init fg0) ∧
      I1.getHeight = d1.nrows ∧ I1.getWidth = d1.ncols ∧ I1.display = I.display ∧
      d1.init = true ∧
      d1.input = d.input ∧ d1.scale = d.scale ∧ d1.framerate = d.framerate ∧
      d1.field = d.field := by
  refine ⟨_, _, _, openGrey_of_handle P d fg I hfg, ?_, rfl, rfl, ?_, ?_, rfl, rfl, rfl,
    rfl, rfl, rfl, rfl, rfl, rfl, rfl, rfl⟩
  · unfold ICcomp2x.GetDecimation
    split <;> rfl
  · split <;> rfl
  · split <;> rfl

/-- Claim C14 at concrete inputs: drivers built with scale 2 and with scale 1 on
the board of 576 rows and 768 columns, then `open` for a grey image: two
buffers in the first case, one in the second. -/
theorem C14_open_grey_witness :
    (mk2 (Sample.board 576 768) Sample.rawMembers 2 2 = .ok (Sample.built 576 768 2) ∧
      ∃ fg0 d1 I1, openGrey (Sample.board 576 768) (Sample.built 576 768 2)
          Sample.greyImage = .ok (d1, I1) ∧
        fg0.nbufs = 2 ∧ fg0.depth = 8 ∧
        d1.framegrabber = some ((Sample.board 576 768).Init fg0) ∧
        d1.nrows = 576 ∧ d1.ncols = 768 ∧ I1.getHeight = 576 ∧ I1.getWidth = 768 ∧
        d1.init = true) ∧
    (mk2 (Sample.board 576 768) Sample.rawMembers 2 1 = .ok (Sample.built 576 768 1) ∧
      ∃ fg0 d1 I1, openGrey (Sample.board 576 768) (Sample.built 576 768 1)
          Sample.greyImage = .ok (d1, I1) ∧
        fg0.nbufs = 1 ∧ fg0.depth = 8 ∧
        d1.framegrabber = some ((Sample.board 576 768).Init fg0) ∧
        d1.nrows = 576 ∧ d1.ncols = 768 ∧ I1.getHeight = 576 ∧ I1.getWidth = 768 ∧
        d1.init = true) := by
  constructor
  · refine ⟨rfl, ?_⟩
    obtain ⟨fg0, d1, I1, h, a, b, -, -, -, c, e, f, g, k, -, l, -⟩ :=
      C14_open_grey (Sample.board 576 768) (Sample.built 576 768 2) _ Sample.greyImage rfl
    exact ⟨fg0, d1, I1, h, a, b, c, e, f, g.trans e, k.trans f, l⟩
  · refine ⟨rfl, ?_⟩
    obtain ⟨fg0, d1, I1, h, a, b, -, -, -, c, e, f, g, k, -, l, -⟩ :=
      C14_open_grey (Sample.board 576 768) (Sample.built 576 768 1) _ Sample.greyImage rfl
    exact ⟨fg0, d1, I1, h, a, b, c, e, f, g.trans e, k.trans f, l⟩

/-- Claim C16, as the code has it. After `setInput(k)` with `k` in `[0,3]` on a
driver with a handle, `open()` for a grey image hands to `Init()` a handle with
camera `k`; `open()` for a colour image replaces the handle by a new one and
hands that to `Init()`, with the camera of a new handle and not `k`, while the
member `input` still holds `k`. The handle left by `open()` is the one the next
`acquire()` reads from. -/
theorem C16_camera_after_open {δ : Type} (P : Platform) (d : vpIcCompGrabber)
    (fg : ICcomp2x) (k : Nat) (Ig : vpImage Nat δ) (Ic : vpImage vpRGBa δ)
    (hfg : d.framegrabber = some fg) (hk : k ≤ 3) :
    ∃ d1, setInput d k = .ok d1 ∧
      (∃ fgg dg Ig1, openGrey P d1 Ig = .ok (dg, Ig1) ∧
        dg.framegrabber = some (P.Init fgg) ∧ fgg.camera = k ∧ dg.input = k) ∧
      (∃ fgc dc Ic1, openRGBa P d1 Ic = .ok (dc, Ic1) ∧
        dc.framegrabber = some (P.Init fgc) ∧ fgc.camera = P.fresh.camera ∧
        dc.input = k) := by
  refine ⟨_, setInput_of_handle d fg k hfg hk, ?_, ?_⟩
  · refine ⟨_, _, _, openGrey_of_handle P _ (fg.SetCamera k) Ig rfl, rfl, ?_, rfl⟩
    unfold ICcomp2x.GetDecimation
    split <;> rfl
  · exact ⟨_, _, _, openRGBa_of_handle P _ (fg.SetCamera k) Ic rfl, rfl, rfl, rfl⟩

/-- Claim C16 at a concrete input: `vpIcCompGrabber g(2, 2); g.setInput(3);` on
the sample board, whose new handles have camera 0 and whose `Init()` keeps the
camera, then `open` for a grey and for a colour image. -/
theorem C16_camera_after_open_witness :
    (Sample.board 576 768).fresh.camera = 0 ∧
    ∃ d1, setInput (Sample.built 576 768 2) 3 = .ok d1 ∧
      (∃ fgg dg Ig1, openGrey (Sample.board 576 768) d1 Sample.greyImage = .ok (dg, Ig1) ∧
        dg.framegrabber = some ((Sample.board 576 768).Init fgg) ∧ fgg.camera = 3 ∧
        dg.input = 3) ∧
      (∃ fgc dc Ic1, openRGBa (Sample.board 576 768) d1 Sample.colourImage = .ok (dc, Ic1) ∧
        dc.framegrabber = some ((Sample.board 576 768).Init fgc) ∧
        fgc.camera = (Sample.board 576 768).fresh.camera ∧ dc.input = 3) :=
  ⟨rfl, C16_camera_after_open (Sample.board 576 768) (Sample.built 576 768 2) _ 3
    Sample.greyImage Sample.colourImage rfl (by decide)⟩


/-! ## The grey `acquire` and its loop -/

/-- The loop does nothing on a frame with a non-zero field. -/
theorem refetch_of_nonzero (P : Platform) (fuel : Nat) (fr : Frame) (fg : ICcomp2x)
    (h : fr.field ≠ 0) : refetch P fuel fr fg = some (fr, fg) := by
  unfold refetch
  rw [if_pos h]

/-- The loop is still running when no further acquisition is allowed and the
frame has field 0. -/
theorem refetch_zero_fuel (P : Platform) (fr : Frame) (fg : ICcomp2x)
    (h : fr.field = 0) : refetch P 0 fr fg = none := by
  unfold refetch
  simp [h]

/-- One turn of the loop on a frame with field 0: one more acquisition. -/
theorem refetch_succ (P : Platform) (fuel : Nat) (fr : Frame) (fg : ICcomp2x)
    (h : fr.field = 0) :
    refetch P (fuel + 1) fr fg = refetch P fuel (fg.Acquire P).1 (fg.Acquire P).2 := by
  rw [refetch]
  simp [h]

/-- The loop of the grey `acquire` when frame `c + k` is the first of the frames
`c, c + 1, ...` with a non-zero field, `c` being the frame just acquired: with
`k` further acquisitions allowed or more it ends on frame `c + k`, after exactly
`k` further acquisitions; with fewer it is still running. -/
theorem refetch_first_nonzero (P : Platform) :
    ∀ (k fuel c : Nat) (fg : ICcomp2x), fg.acquired = c + 1 →
      (∀ t, t < k → (P.frames (c + t)).field = 0) → (P.frames (c + k)).field ≠ 0 →
      (k ≤ fuel → refetch P fuel (P.frames c) fg =
        some (P.frames (c + k), { fg with acquired := c + k + 1 })) ∧
      (fuel < k → refetch P fuel (P.frames c) fg = none) := by
  intro k
  induction k with
  | zero =>
    intro fuel c fg hfg _ hk
    have hk0 : (P.frames c).field ≠ 0 := hk
    refine ⟨fun _ => ?_, fun h => by omega⟩
    rw [refetch_of_nonzero P fuel _ fg hk0]
    cases fg
    simp only [Nat.add_zero] at hfg ⊢
    subst hfg
    rfl
  | succ k ih =>
    intro fuel c fg hfg hz hk
    have h0 : (P.frames c).field = 0 := hz 0 (by omega)
    cases fuel with
    | zero =>
      exact ⟨fun h => by omega, fun _ => refetch_zero_fuel P _ fg h0⟩
    | succ fuel =>
      rw [refetch_succ P fuel _ fg h0]
      have hnext : (fg.Acquire P).1 = P.frames (c + 1) := by
        unfold ICcomp2x.Acquire
        rw [hfg]
      have hacq : (fg.Acquire P).2.acquired = c + 1 + 1 := by
        unfold ICcomp2x.Acquire
        simp [hfg]
      rw [hnext]
      have e : c + 1 + k = c + (k + 1) := by omega
      obtain ⟨a, b⟩ := ih fuel (c + 1) (fg.Acquire P).2 hacq
        (fun t ht => by
          have := hz (t + 1) (by omega)
          rw [show c + 1 + t = c + (t + 1) by omega]
          exact this)
        (by rw [e]; exact hk)
      refine ⟨fun h => ?_, fun h => b (by omega)⟩
      rw [a (by omega), e]
      rfl

/-- The loop of the grey `acquire` when every frame from `c` on has field 0:
it is still running after any number of acquisitions. -/
theorem refetch_all_zero (P : Platform) :
    ∀ (fuel c : Nat) (fg : ICcomp2x), fg.acquired = c + 1 →
      (∀ t, (P.frames (c + t)).field = 0) → refetch P fuel (P.frames c) fg = none := by
  intro fuel
  induction fuel with
  | zero =>
    intro c fg _ hz
    exact refetch_zero_fuel P _ fg (hz 0)
  | succ fuel ih =>
    intro c fg hfg hz
    have h0 : (P.frames c).field = 0 := hz 0
    rw [refetch_succ P fuel _ fg h0]
    have hnext : (fg.Acquire P).1 = P.frames (c + 1) := by
      unfold ICcomp2x.Acquire
      rw [hfg]
    have hacq : (fg.Acquire P).2.acquired = c + 1 + 1 := by
      unfold ICcomp2x.Acquire
      simp [hfg]
    rw [hnext]
    exact ih (c + 1) _ hacq (fun t => by
      rw [show c + 1 + t = c + (t + 1) by omega]
      exact hz (t + 1))


/-- When the loop of the grey `acquire` ends, it ends on the first frame with a
non-zero field. -/
theorem refetch_some (P : Platform) (fuel c : Nat) (fg : ICcomp2x) (r : Frame × ICcomp2x)
    (hfg : fg.acquired = c + 1) (h : refetch P fuel (P.frames c) fg = some r) :
    ∃ k, k ≤ fuel ∧ (∀ t, t < k → (P.frames (c + t)).field = 0) ∧
      (P.frames (c + k)).field ≠ 0 ∧
      r = (P.frames (c + k), { fg with acquired := c + k + 1 }) := by
  by_cases hex : ∃ k, (P.frames (c + k)).field ≠ 0
  · have hmin : ∀ t, t < Nat.find hex → (P.frames (c + t)).field = 0 := by
      intro t ht
      by_contra hne
      exact Nat.find_min hex ht hne
    obtain ⟨a, b⟩ := refetch_first_nonzero P (Nat.find hex) fuel c fg hfg hmin
      (Nat.find_spec hex)
    by_cases hle : Nat.find hex ≤ fuel
    · rw [a hle] at h
      exact ⟨Nat.find hex, hle, hmin, Nat.find_spec hex, (Option.some.inj h).symm⟩
    · rw [b (by omega)] at h
      cases h
  · have hz : ∀ t, (P.frames (c + t)).field = 0 := by
      intro t
      by_contra hne
      exact hex ⟨t, hne⟩
    rw [refetch_all_zero P fuel c fg hfg hz] at h
    cases h

/-- The grey `acquire` at 25fps on a handle whose decimation is not 1: it is
still running when its loop is, and when the loop ends on frame `r.1` it
returns with `field` and the image taken from that frame. -/
theorem acquireGrey_filtering {δ : Type} (P : Platform) (fuel : Nat) (d : vpIcCompGrabber)
    (fg : ICcomp2x) (I : vpImage Nat δ) (hfg : d.framegrabber = some fg)
    (h25 : d.framerate = .framerate_25fps) (hdec : fg.decimation ≠ 1) :
    (refetch P fuel (fg.Acquire P).1 (fg.Acquire P).2 = none →
      acquireGrey P fuel d I = none) ∧
    (∀ r, refetch P fuel (fg.Acquire P).1 (fg.Acquire P).2 = some r →
      ∃ d1 I1, acquireGrey P fuel d I = some (.ok (d1, I1)) ∧
        d1 = { d with field := r.1.field, framegrabber := some r.2 } ∧
        I1.getHeight = d.nrows ∧ I1.getWidth = d.ncols ∧ I1.display = I.display ∧
        ∀ t, t < d.nrows * d.ncols → I1.bitmap t = r.1.bitmap t) := by
  have hd : (fg.Acquire P).2.GetDecimation ≠ 1 := hdec
  constructor
  · intro h
    unfold acquireGrey
    simp only [hfg, h25, if_pos hd, h]
  · intro r h
    unfold acquireGrey
    simp only [hfg, h25, if_pos hd, h]
    refine ⟨_, _, rfl, rfl, ?_, ?_, ?_, ?_⟩
    · by_cases hsz : I.getWidth ≠ d.ncols ∨ I.getHeight ≠ d.nrows
      · simp only [if_pos hsz]
        rfl
      · simp only [if_neg hsz]
        by_contra hne
        exact hsz (Or.inr hne)
    · by_cases hsz : I.getWidth ≠ d.ncols ∨ I.getHeight ≠ d.nrows
      · simp only [if_pos hsz]
        rfl
      · simp only [if_neg hsz]
        by_contra hne
        exact hsz (Or.inl hne)
    · by_cases hsz : I.getWidth ≠ d.ncols ∨ I.getHeight ≠ d.nrows
      · simp only [if_pos hsz]
        rfl
      · simp only [if_neg hsz]
    · intro t ht
      simp only [if_pos ht]

/-- The grey `acquire` at 50fps, or on a handle whose decimation is 1: one
acquisition, whose frame is kept. -/
theorem acquireGrey_single {δ : Type} (P : Platform) (fuel : Nat) (d : vpIcCompGrabber)
    (fg : ICcomp2x) (I : vpImage Nat δ) (hfg : d.framegrabber = some fg)
    (h : d.framerate = .framerate_50fps ∨ fg.decimation = 1) :
    ∃ d1 I1, acquireGrey P fuel d I = some (.ok (d1, I1)) ∧
      d1 = { d with field := (P.frames fg.acquired).field,
                    framegrabber := some { fg with acquired := fg.acquired + 1 } } ∧
      I1.getHeight = d.nrows ∧ I1.getWidth = d.ncols ∧ I1.display = I.display ∧
      ∀ t, t < d.nrows * d.ncols → I1.bitmap t = (P.frames fg.acquired).bitmap t := by
  have hgot : (match d.framerate with
      | .framerate_25fps =>
        if (fg.Acquire P).2.GetDecimation ≠ 1 then
          refetch P fuel (fg.Acquire P).1 (fg.Acquire P).2
        else some (fg.Acquire P)
      | .framerate_50fps => some (fg.Acquire P)) = some (fg.Acquire P) := by
    cases hr : d.framerate with
    | framerate_50fps => rfl
    | framerate_25fps =>
      rcases h with h | h
      · rw [hr] at h
        cases h
      · have hd : ¬ (fg.Acquire P).2.GetDecimation ≠ 1 := fun hne => hne h
        simp only [if_neg hd]
  unfold acquireGrey
  simp only [hfg, hgot]
  refine ⟨_, _, rfl, rfl, ?_, ?_, ?_, ?_⟩
  · by_cases hsz : I.getWidth ≠ d.ncols ∨ I.getHeight ≠ d.nrows
    · simp only [if_pos hsz]
      rfl
    · simp only [if_neg hsz]
      by_contra hne
      exact hsz (Or.inr hne)
  · by_cases hsz : I.getWidth ≠ d.ncols ∨ I.getHeight ≠ d.nrows
    · simp only [if_pos hsz]
      rfl
    · simp only [if_neg hsz]
      by_contra hne
      exact hsz (Or.inl hne)
  · by_cases hsz : I.getWidth ≠ d.ncols ∨ I.getHeight ≠ d.nrows
    · simp only [if_pos hsz]
      rfl
    · simp only [if_neg hsz]
  · intro t ht
    simp only [if_pos ht]
    rfl


/-- Claim C15. On a driver with a handle that has made `a` acquisitions, so
that the frames this `acquire()` can get are `frames a, frames (a+1), ...`:
at 25fps with hardware decimation other than 1, a grey `acquire()` that returns
has kept the first frame `a + k` with a non-zero field (`field`, `getField()`,
image and acquisition count say so), and it does return, given `k` further
acquisitions, when such a frame exists; at 50fps, or with decimation 1, it
makes one acquisition and keeps frame `a`, whatever its field. -/
theorem C15_grey_field_filtering {δ : Type} (P : Platform) (d : vpIcCompGrabber)
    (fg : ICcomp2x) (I : vpImage Nat δ) (hfg : d.framegrabber = some fg) :
    (d.framerate = .framerate_25fps → fg.decimation ≠ 1 →
      (∀ fuel d1 I1, acquireGrey P fuel d I = some (.ok (d1, I1)) →
        ∃ k, (∀ t, t < k → (P.frames (fg.acquired + t)).field = 0) ∧
          (P.frames (fg.acquired + k)).field ≠ 0 ∧
          d1.field = (P.frames (fg.acquired + k)).field ∧ d1.getField = true ∧
          d1.framegrabber = some { fg with acquired := fg.acquired + k + 1 } ∧
          I1.getHeight = d.nrows ∧ I1.getWidth = d.ncols ∧
          ∀ t, t < d.nrows * d.ncols →
            I1.bitmap t = (P.frames (fg.acquired + k)).bitmap t) ∧
      (∀ k, (∀ t, t < k → (P.frames (fg.acquired + t)).field = 0) →
        (P.frames (fg.acquired + k)).field ≠ 0 →
        ∃ d1 I1, acquireGrey P k d I = some (.ok (d1, I1)) ∧
          d1.field = (P.frames (fg.acquired + k)).field ∧ d1.getField = true ∧
          d1.framegrabber = some { fg with acquired := fg.acquired + k + 1 } ∧
          I1.getHeight = d.nrows ∧ I1.getWidth = d.ncols ∧
          ∀ t, t < d.nrows * d.ncols →
            I1.bitmap t = (P.frames (fg.acquired + k)).bitmap t)) ∧
    ((d.framerate = .framerate_50fps ∨ fg.decimation = 1) →
      ∀ fuel, ∃ d1 I1, acquireGrey P fuel d I = some (.ok (d1, I1)) ∧
        d1.field = (P.frames fg.acquired).field ∧
        d1.framegrabber = some { fg with acquired := fg.acquired + 1 } ∧
        I1.getHeight = d.nrows ∧ I1.getWidth = d.ncols ∧
        ∀ t, t < d.nrows * d.ncols → I1.bitmap t = (P.frames fg.acquired).bitmap t) := by
  refine ⟨fun h25 hdec => ⟨?_, ?_⟩, fun h fuel => ?_⟩
  · intro fuel d1 I1 hret
    obtain ⟨hnone, hsome⟩ := acquireGrey_filtering P fuel d fg I hfg h25 hdec
    cases hre : refetch P fuel (fg.Acquire P).1 (fg.Acquire P).2 with
    | none =>
      rw [hnone hre] at hret
      cases hret
    | some r =>
      obtain ⟨d2, I2, h2, hd2, hH, hW, -, hbit⟩ := hsome r hre
      rw [h2] at hret
      have hpair : (d2, I2) = (d1, I1) := Except.ok.inj (Option.some.inj hret)
      have e1 : d2 = d1 := congrArg Prod.fst hpair
      have e2 : I2 = I1 := congrArg Prod.snd hpair
      subst e1
      subst e2
      obtain ⟨k, -, hz, hk, hr⟩ := refetch_some P fuel fg.acquired (fg.Acquire P).2 r rfl hre
      subst hr
      subst hd2
      refine ⟨k, hz, hk, rfl, ?_, rfl, hH, hW, hbit⟩
      simp [getField, hk]
  · intro k hz hk
    obtain ⟨-, hsome⟩ := acquireGrey_filtering P k d fg I hfg h25 hdec
    obtain ⟨a, -⟩ := refetch_first_nonzero P k k fg.acquired (fg.Acquire P).2 rfl hz hk
    obtain ⟨d2, I2, h2, hd2, hH, hW, -, hbit⟩ := hsome _ (a (Nat.le_refl k))
    subst hd2
    refine ⟨_, I2, h2, rfl, ?_, rfl, hH, hW, hbit⟩
    simp [getField, hk]
  · obtain ⟨d2, I2, h2, hd2, hH, hW, -, hbit⟩ := acquireGrey_single P fuel d fg I hfg h
    subst hd2
    exact ⟨_, I2, h2, rfl, rfl, hH, hW, hbit⟩


/-- Claim C15 at concrete inputs: on the board whose frames 0 and 1 report field
0 and whose frame 2 reports field 1, a driver with scale 2 opened for a grey
image keeps frame 2 (three acquisitions); the same driver switched to 50fps
keeps frame 0. -/
theorem C15_grey_field_filtering_witness :
    openGrey (Sample.lateField 576 768 2) (Sample.built 576 768 2) Sample.greyImage =
      .ok (Sample.openedGrey 576 768 2, Sample.sizedGrey 576 768) ∧
    (∃ d1 I1, acquireGrey (Sample.lateField 576 768 2) 2 (Sample.openedGrey 576 768 2)
        (Sample.sizedGrey 576 768) = some (.ok (d1, I1)) ∧
      d1.field = 1 ∧ d1.getField = true ∧
      d1.framegrabber = some { camera := 2, decimation := 2, nbufs := 2, depth := 8,
                               cbCrOrder := ICCOMP_NORMAL_ORDER, ready := true,
                               acquired := 3 } ∧
      I1.getHeight = 576 ∧ I1.getWidth = 768 ∧ I1.bitmap 5 = 7) ∧
    (∃ d1 I1, acquireGrey (Sample.lateField 576 768 2) 0
        (setFramerate (Sample.openedGrey 576 768 2) .framerate_50fps)
        (Sample.sizedGrey 576 768) = some (.ok (d1, I1)) ∧
      d1.field = 0 ∧
      d1.framegrabber = some { camera := 2, decimation := 2, nbufs := 2, depth := 8,
                               cbCrOrder := ICCOMP_NORMAL_ORDER, ready := true,
                               acquired := 1 } ∧
      I1.bitmap 5 = 5) := by
  refine ⟨rfl, ?_, ?_⟩
  · obtain ⟨d1, I1, h, a, b, c, e, f, g⟩ :=
      ((C15_grey_field_filtering (Sample.lateField 576 768 2) (Sample.openedGrey 576 768 2)
        _ (Sample.sizedGrey 576 768) rfl).1 rfl (by decide)).2 2
        (fun t ht => by interval_cases t <;> rfl) (by decide)
    exact ⟨d1, I1, h, a, b, c, e, f, g 5 (by decide)⟩
  · obtain ⟨d1, I1, h, a, c, -, -, g⟩ :=
      (C15_grey_field_filtering (Sample.lateField 576 768 2)
        (setFramerate (Sample.openedGrey 576 768 2) .framerate_50fps)
        _ (Sample.sizedGrey 576 768) rfl).2 (Or.inl rfl) 0
    exact ⟨d1, I1, h, a, c, g 5 (by decide)⟩

/-- Claim C18. On a driver with a handle that has made `a` acquisitions, with
`fuel` the number of further acquisitions the loop of the grey `acquire()` is
given: at 25fps with hardware decimation other than 1, `acquire()` ends for
some `fuel` exactly when some frame `a + k` has a non-zero field; for the least
such `k` it ends for every `fuel ≥ k`, having made `k + 1` acquisitions, and is
still running for every `fuel < k`; when every frame has field 0 it is still
running for every `fuel`. At 50fps, or with decimation 1, it ends for every
`fuel`, having made one acquisition. -/
theorem C18_grey_acquire_termination {δ : Type} (P : Platform) (d : vpIcCompGrabber)
    (fg : ICcomp2x) (I : vpImage Nat δ) (hfg : d.framegrabber = some fg) :
    (d.framerate = .framerate_25fps → fg.decimation ≠ 1 →
      ((∃ fuel, acquireGrey P fuel d I ≠ none) ↔
        ∃ k, (P.frames (fg.acquired + k)).field ≠ 0) ∧
      (∀ k, (∀ t, t < k → (P.frames (fg.acquired + t)).field = 0) →
        (P.frames (fg.acquired + k)).field ≠ 0 →
        (∀ fuel, k ≤ fuel → ∃ d1 I1, acquireGrey P fuel d I = some (.ok (d1, I1)) ∧
          d1.framegrabber = some { fg with acquired := fg.acquired + (k + 1) }) ∧
        (∀ fuel, fuel < k → acquireGrey P fuel d I = none)) ∧
      ((∀ t, (P.frames (fg.acquired + t)).field = 0) →
        ∀ fuel, acquireGrey P fuel d I = none)) ∧
    ((d.framerate = .framerate_50fps ∨ fg.decimation = 1) →
      ∀ fuel, ∃ d1 I1, acquireGrey P fuel d I = some (.ok (d1, I1)) ∧
        d1.framegrabber = some { fg with acquired := fg.acquired + 1 }) := by
  refine ⟨fun h25 hdec => ?_, fun h fuel => ?_⟩
  · have hleast : ∀ k, (∀ t, t < k → (P.frames (fg.acquired + t)).field = 0) →
        (P.frames (fg.acquired + k)).field ≠ 0 →
        (∀ fuel, k ≤ fuel → ∃ d1 I1, acquireGrey P fuel d I = some (.ok (d1, I1)) ∧
          d1.framegrabber = some { fg with acquired := fg.acquired + (k + 1) }) ∧
        (∀ fuel, fuel < k → acquireGrey P fuel d I = none) := by
      intro k hz hk
      constructor
      · intro fuel hle
        obtain ⟨-, hsome⟩ := acquireGrey_filtering P fuel d fg I hfg h25 hdec
        obtain ⟨a, -⟩ := refetch_first_nonzero P k fuel fg.acquired (fg.Acquire P).2 rfl hz hk
        obtain ⟨d2, I2, h2, hd2, -⟩ := hsome _ (a hle)
        subst hd2
        exact ⟨_, I2, h2, rfl⟩
      · intro fuel hlt
        obtain ⟨hnone, -⟩ := acquireGrey_filtering P fuel d fg I hfg h25 hdec
        obtain ⟨-, b⟩ := refetch_first_nonzero P k fuel fg.acquired (fg.Acquire P).2 rfl hz hk
        exact hnone (b hlt)
    have hnever : (∀ t, (P.frames (fg.acquired + t)).field = 0) →
        ∀ fuel, acquireGrey P fuel d I = none := by
      intro hz fuel
      obtain ⟨hnone, -⟩ := acquireGrey_filtering P fuel d fg I hfg h25 hdec
      exact hnone (refetch_all_zero P fuel fg.acquired (fg.Acquire P).2 rfl hz)
    refine ⟨⟨?_, ?_⟩, hleast, hnever⟩
    · rintro ⟨fuel, hne⟩
      by_contra hno
      have hz : ∀ t, (P.frames (fg.acquired + t)).field = 0 := by
        intro t
        by_contra hne2
        exact hno ⟨t, hne2⟩
      exact hne (hnever hz fuel)
    · intro hex
      have hmin : ∀ t, t < Nat.find hex → (P.frames (fg.acquired + t)).field = 0 := by
        intro t ht
        by_contra hne
        exact Nat.find_min hex ht hne
      obtain ⟨d1, I1, h1, -⟩ :=
        (hleast (Nat.find hex) hmin (Nat.find_spec hex)).1 (Nat.find hex) (Nat.le_refl _)
      refine ⟨Nat.find hex, ?_⟩
      rw [h1]
      exact fun hc => by cases hc
  · obtain ⟨d2, I2, h2, hd2, -⟩ := acquireGrey_single P fuel d fg I hfg h
    subst hd2
    exact ⟨_, I2, h2, rfl⟩

/-- Claim C18 at concrete inputs: a driver with scale 2 opened for a grey image.
On the board whose first frame with field 1 is frame 2, `acquire()` is still
running with one further acquisition and has ended with two, after three
acquisitions in all; on the board whose frames all report field 0 it is still
running after 1000 further acquisitions. -/
theorem C18_grey_acquire_termination_witness :
    acquireGrey (Sample.lateField 576 768 2) 1 (Sample.openedGrey 576 768 2)
      (Sample.sizedGrey 576 768) = none ∧
    (∃ d1 I1, acquireGrey (Sample.lateField 576 768 2) 2 (Sample.openedGrey 576 768 2)
        (Sample.sizedGrey 576 768) = some (.ok (d1, I1)) ∧
      d1.framegrabber = some { camera := 2, decimation := 2, nbufs := 2, depth := 8,
                               cbCrOrder := ICCOMP_NORMAL_ORDER, ready := true,
                               acquired := 3 }) ∧
    acquireGrey (Sample.noField 576 768) 1000 (Sample.openedGrey 576 768 2)
      (Sample.sizedGrey 576 768) = none := by
  have h := (C18_grey_acquire_termination (Sample.lateField 576 768 2)
    (Sample.openedGrey 576 768 2) _ (Sample.sizedGrey 576 768) rfl).1 rfl (by decide)
  have h2 := h.2.1 2 (fun t ht => by interval_cases t <;> rfl) (by decide)
  have h0 := (C18_grey_acquire_termination (Sample.noField 576 768)
    (Sample.openedGrey 576 768 2) _ (Sample.sizedGrey 576 768) rfl).1 rfl (by decide)
  exact ⟨h2.2 1 (by decide), h2.1 2 (by decide), h0.2.2 (fun _ => rfl) 1000⟩


/-! ## The offsets read by the colour decimation -/

/-- The inner loop with its list of reads is the inner loop, and it reads the
three bytes at `ptr + 4*S*t` for each turn `t`. -/
theorem decimateRowLog_spec {δ : Type} (buf : Nat → Nat) (S i : Nat) :
    ∀ (n j ptr : Nat) (I : vpImage vpRGBa δ) (log : List Nat),
      (decimateRowLog buf S i n j ptr I log).1 = (decimateRow buf S i n j ptr I).1 ∧
      (decimateRowLog buf S i n j ptr I log).2.1 = (decimateRow buf S i n j ptr I).2 ∧
      (∀ o, o ∈ (decimateRowLog buf S i n j ptr I log).2.2 ↔
        (o ∈ log ∨ ∃ t c, t < n ∧ c ≤ 2 ∧ o = ptr + 4 * S * t + c)) := by
  intro n
  induction n with
  | zero =>
    intro j ptr I log
    refine ⟨rfl, rfl, fun o => ⟨fun h => Or.inl h, fun h => ?_⟩⟩
    rcases h with h | ⟨t, c, ht, -, -⟩
    · exact h
    · omega
  | succ n ih =>
    intro j ptr I log
    rw [decimateRowLog, decimateRow]
    obtain ⟨h1, h2, h3⟩ := ih (j + 1) (ptr + 4 * S)
      (((I.set i j { I.get i j with B := buf ptr }).set i j
        { (I.set i j { I.get i j with B := buf ptr }).get i j with G := buf (ptr + 1) }).set i j
        { ((I.set i j { I.get i j with B := buf ptr }).set i j
            { (I.set i j { I.get i j with B := buf ptr }).get i j with
              G := buf (ptr + 1) }).get i j with R := buf (ptr + 2) })
      (log ++ [ptr, ptr + 1, ptr + 2])
    refine ⟨h1, h2, fun o => ?_⟩
    rw [h3 o]
    constructor
    · rintro (h | ⟨t, c, ht, hc, ho⟩)
      · rw [List.mem_append] at h
        rcases h with h | h
        · exact Or.inl h
        · simp only [List.mem_cons, List.mem_singleton, List.not_mem_nil, or_false] at h
          rcases h with h | h | h
          · exact Or.inr ⟨0, 0, by omega, by omega, by omega⟩
          · exact Or.inr ⟨0, 1, by omega, by omega, by omega⟩
          · exact Or.inr ⟨0, 2, by omega, by omega, by omega⟩
      · refine Or.inr ⟨t + 1, c, by omega, hc, ?_⟩
        rw [ho]
        ring
    · rintro (h | ⟨t, c, ht, hc, ho⟩)
      · exact Or.inl (List.mem_append_left _ h)
      · cases t with
        | zero =>
          refine Or.inl (List.mem_append_right _ ?_)
          simp only [List.mem_cons, List.mem_singleton, List.not_mem_nil, or_false]
          omega
        | succ t =>
          refine Or.inr ⟨t, c, by omega, hc, ?_⟩
          rw [ho]
          ring


/-- The outer loop with its list of reads is the outer loop, and it reads, for
each of its turns `q` and each column `t`, the three bytes at
`ptr + q * (4*S*width + W*4*(S-1)) + 4*S*t`. -/
theorem decimateRowsLog_spec {δ : Type} (buf : Nat → Nat) (S W : Nat) :
    ∀ (m i ptr : Nat) (I : vpImage vpRGBa δ) (log : List Nat),
      (decimateRowsLog buf S W m i ptr I log).1 = (decimateRows buf S W m i ptr I).1 ∧
      (decimateRowsLog buf S W m i ptr I log).2.1 = (decimateRows buf S W m i ptr I).2 ∧
      (∀ o, o ∈ (decimateRowsLog buf S W m i ptr I log).2.2 ↔
        (o ∈ log ∨ ∃ q t c, q < m ∧ t < I.width ∧ c ≤ 2 ∧
          o = ptr + q * (4 * S * I.width + W * 4 * 1 * (S - 1)) + 4 * S * t + c)) := by
  intro m
  induction m with
  | zero =>
    intro i ptr I log
    refine ⟨rfl, rfl, fun o => ⟨fun h => Or.inl h, fun h => ?_⟩⟩
    rcases h with h | ⟨q, t, c, hq, -⟩
    · exact h
    · omega
  | succ m ih =>
    intro i ptr I log
    rw [decimateRowsLog, decimateRows_succ]
    obtain ⟨r1, r2, r3⟩ := decimateRowLog_spec buf S i I.width 0 ptr I log
    obtain ⟨p1, -, p3, -⟩ := decimateRow_spec buf S i I.width 0 ptr I
    have hw : (decimateRowLog buf S i I.getWidth 0 ptr I log).2.1.width = I.width := by
      unfold vpImage.getWidth
      rw [r2, p3]
    obtain ⟨h1, h2, h3⟩ := ih (i + 1)
      ((decimateRowLog buf S i I.getWidth 0 ptr I log).1 + W * 4 * 1 * (S - 1))
      (decimateRowLog buf S i I.getWidth 0 ptr I log).2.1
      (decimateRowLog buf S i I.getWidth 0 ptr I log).2.2
    have e1 : (decimateRowLog buf S i I.getWidth 0 ptr I log).1 = ptr + 4 * S * I.width := by
      unfold vpImage.getWidth
      rw [r1, p1]
    have e2 : (decimateRowLog buf S i I.getWidth 0 ptr I log).2.1 =
        (decimateRow buf S i I.width 0 ptr I).2 := r2
    refine ⟨?_, ?_, fun o => ?_⟩
    · rw [h1]
      unfold vpImage.getWidth
      rw [r1, r2]
    · rw [h2]
      unfold vpImage.getWidth
      rw [r1, r2]
    · rw [h3 o, hw, e1]
      have r3o := r3 o
      unfold vpImage.getWidth
      constructor
      · rintro (h | ⟨q, t, c, hq, ht, hc, ho⟩)
        · rcases r3o.1 h with h | ⟨t, c, ht, hc, ho⟩
          · exact Or.inl h
          · exact Or.inr ⟨0, t, c, by omega, ht, hc, by rw [ho]; ring⟩
        · refine Or.inr ⟨q + 1, t, c, by omega, ht, hc, ?_⟩
          rw [ho]
          ring
      · rintro (h | ⟨q, t, c, hq, ht, hc, ho⟩)
        · exact Or.inl (r3o.2 (Or.inl h))
        · cases q with
          | zero =>
            refine Or.inl (r3o.2 (Or.inr ⟨t, c, ht, hc, ?_⟩))
            rw [ho]
            ring
          | succ q =>
            refine Or.inr ⟨q, t, c, by omega, ht, hc, ?_⟩
            rw [ho]
            ring

/-- The decimation with its list of reads is the decimation, and the offsets it
reads are the offsets `4 * (i * (S*width + W*(S-1)) + j*S) + c` with `(i, j)` a
pixel of the image and `c` one of 0, 1, 2. -/
theorem decimateLog_spec {δ : Type} (buf : Nat → Nat) (S W : Nat) (I : vpImage vpRGBa δ) :
    (decimateLog buf S W I).1 = decimate buf S W I ∧
    (∀ o, o ∈ (decimateLog buf S W I).2 ↔
      ∃ i j c, i < I.height ∧ j < I.width ∧ c ≤ 2 ∧
        o = 4 * (i * (S * I.width + W * (S - 1)) + j * S) + c) := by
  obtain ⟨-, h2, h3⟩ := decimateRowsLog_spec buf S W I.getHeight 0 0 I []
  refine ⟨h2, fun o => ?_⟩
  unfold decimateLog
  rw [h3 o]
  constructor
  · rintro (h | ⟨q, t, c, hq, ht, hc, ho⟩)
    · cases h
    · exact ⟨q, t, c, hq, ht, hc, by rw [ho]; ring⟩
  · rintro ⟨q, t, c, hq, ht, hc, ho⟩
    exact Or.inr ⟨q, t, c, hq, ht, hc, by rw [ho]; ring⟩

/-- The last byte read for pixel `(i, j)` of an image of `H/S` rows and `W/S`
columns lies inside a buffer of `4*W*H` bytes. -/
theorem offset_lt_size (H W S i j c : Nat) (hS : 1 ≤ S) (hi : i < H / S) (hj : j < W / S)
    (hc : c ≤ 2) :
    4 * (i * (S * (W / S) + W * (S - 1)) + j * S) + c < 4 * W * H := by
  have h1 : S * (W / S) ≤ W := Nat.mul_div_le W S
  have h2 : S * (H / S) ≤ H := Nat.mul_div_le H S
  have h3 : (i + 1) * S ≤ H / S * S := Nat.mul_le_mul_right S hi
  have h4 : (j + 1) * S ≤ W / S * S := Nat.mul_le_mul_right S hj
  have h5 : i * S + S ≤ H := by
    have : (i + 1) * S = i * S + S := by ring
    have : H / S * S = S * (H / S) := by ring
    omega
  have h6 : j * S + S ≤ W := by
    have : (j + 1) * S = j * S + S := by ring
    have : W / S * S = S * (W / S) := by ring
    omega
  have h7 : W * (S - 1) + W = W * S := by
    have : S - 1 + 1 = S := by omega
    calc W * (S - 1) + W = W * (S - 1 + 1) := by ring
      _ = W * S := by rw [this]
  have h8 : i * (S * (W / S) + W * (S - 1)) ≤ i * (W * S) :=
    Nat.mul_le_mul_left i (by omega)
  have h9 : W * (i * S + S) ≤ W * H := Nat.mul_le_mul_left W h5
  have h10 : W ≤ W * S := Nat.le_mul_of_pos_right W (by omega)
  have h11 : i * (W * S) = W * (i * S) := by ring
  have h12 : W * (i * S + S) = W * (i * S) + W * S := by ring
  have h13 : 4 * W * H = 4 * (W * H) := by ring
  have h14 : 4 * (i * (S * (W / S) + W * (S - 1)) + j * S) =
      4 * (i * (S * (W / S) + W * (S - 1))) + 4 * (j * S) := by ring
  omega


/-- When `S` divides `W` the offset the loop reaches for pixel `(a, b)` is the
offset of source pixel `(a*S, b*S)`. -/
theorem offset_of_dvd (W S : Nat) (h : S ∣ W) (a b : Nat) :
    4 * (a * (S * (W / S) + W * (S - 1)) + b * S) = 4 * ((a * S) * W + b * S) := by
  rw [Nat.mul_div_cancel' h]
  rcases Nat.eq_zero_or_pos S with h0 | hpos
  · subst h0
    have hW : W = 0 := Nat.eq_zero_of_zero_dvd h
    subst hW
    simp
  · have e : W + W * (S - 1) = W * S := by
      have : S - 1 + 1 = S := by omega
      calc W + W * (S - 1) = W * (S - 1 + 1) := by ring
        _ = W * S := by rw [this]
    rw [e]
    ring

/-- Claim C19. For every buffer, every hardware size `(H, W)`, every scale
`S ≥ 1` and every image of `H/S` rows and `W/S` columns, each offset the
decimation loop reads (the loop with its list of reads is the loop of
`acquire`) is smaller than `4*W*H`. -/
theorem C19_reads_within_buffer {δ : Type} (buf : Nat → Nat) (S W H : Nat)
    (I : vpImage vpRGBa δ) (hS : 1 ≤ S) (hh : I.height = H / S) (hw : I.width = W / S) :
    (decimateLog buf S W I).1 = decimate buf S W I ∧
    ∀ o, o ∈ (decimateLog buf S W I).2 → o < 4 * W * H := by
  obtain ⟨h1, h2⟩ := decimateLog_spec buf S W I
  refine ⟨h1, fun o ho => ?_⟩
  obtain ⟨i, j, c, hi, hj, hc, rfl⟩ := (h2 o).1 ho
  rw [hw]
  exact offset_lt_size H W S i j c hS (by rw [← hh]; exact hi) (by rw [← hw]; exact hj) hc

/-- Claim C19 at a concrete input: the board of 576 rows and 768 columns, scale
5, an image of 115 rows and 153 columns. The last bytes read, for pixel
(114, 152), are among the reads and inside the buffer. -/
theorem C19_reads_within_buffer_witness :
    (decimateLog (Sample.converted 576 768) 5 768 (Sample.sizedColour 115 153)).1 =
      decimate (Sample.converted 576 768) 5 768 (Sample.sizedColour 115 153) ∧
    (∀ o, o ∈ (decimateLog (Sample.converted 576 768) 5 768
        (Sample.sizedColour 115 153)).2 → o < 4 * 768 * 576) ∧
    (4 * (114 * (5 * 153 + 768 * (5 - 1)) + 152 * 5) + 2 ∈
      (decimateLog (Sample.converted 576 768) 5 768 (Sample.sizedColour 115 153)).2) := by
  obtain ⟨h1, h2⟩ := C19_reads_within_buffer (Sample.converted 576 768) 5 768 576
    (Sample.sizedColour 115 153) (by decide) rfl rfl
  refine ⟨h1, h2, ?_⟩
  exact ((decimateLog_spec (Sample.converted 576 768) 5 768
    (Sample.sizedColour 115 153)).2 _).2 ⟨114, 152, 2, by decide, by decide, by decide, rfl⟩

/-- Claim C20. In the decimation loop run on an image of `W/S` columns, pixel
`(i, j)` receives the three bytes at offset
`4 * (i * (S * (W/S) + W * (S-1)) + j * S)`, and these are among the offsets
read; when `S` divides `W` this offset is `4 * ((i*S) * W + j*S)` for every `i`
and `j`, so that the pixel receives bytes 0, 1, 2 of source pixel `(i*S, j*S)`. -/
theorem C20_offset_formula {δ : Type} (buf : Nat → Nat) (S W : Nat) (I : vpImage vpRGBa δ)
    (i j : Nat) (hw : I.width = W / S) (hi : i < I.height) (hj : j < I.width) :
    (decimate buf S W I).get i j =
      loopPixel buf (4 * (i * (S * (W / S) + W * (S - 1)) + j * S)) (I.get i j) ∧
    (∀ c, c ≤ 2 →
      4 * (i * (S * (W / S) + W * (S - 1)) + j * S) + c ∈ (decimateLog buf S W I).2) ∧
    (S ∣ W → ∀ a b,
      4 * (a * (S * (W / S) + W * (S - 1)) + b * S) = 4 * ((a * S) * W + b * S)) ∧
    (S ∣ W →
      ((decimate buf S W I).get i j).B = Sample.sourceByte buf W (i * S) (j * S) 0 ∧
      ((decimate buf S W I).get i j).G = Sample.sourceByte buf W (i * S) (j * S) 1 ∧
      ((decimate buf S W I).get i j).R = Sample.sourceByte buf W (i * S) (j * S) 2) := by
  obtain ⟨-, -, hget⟩ := decimate_get buf S W I i j hi hj
  rw [hw] at hget
  refine ⟨hget, fun c hc => ?_, fun hd a b => offset_of_dvd W S hd a b, fun hd => ?_⟩
  · refine ((decimateLog_spec buf S W I).2 _).2 ⟨i, j, c, hi, hj, hc, ?_⟩
    rw [hw]
  · rw [hget, offset_of_dvd W S hd i j]
    exact ⟨rfl, rfl, rfl⟩

/-- Claim C20 at a concrete input: the board of 576 rows and 768 columns, scale
4 (which divides 768), an image of 144 rows and 192 columns, pixel (1, 0): it
receives the bytes of source pixel (4, 0). -/
theorem C20_offset_formula_witness :
    ((decimate (Sample.converted 576 768) 4 768 (Sample.sizedColour 144 192)).get 1 0).B =
        Sample.sourceByte (Sample.converted 576 768) 768 (1 * 4) (0 * 4) 0 ∧
    ((decimate (Sample.converted 576 768) 4 768 (Sample.sizedColour 144 192)).get 1 0).G =
        Sample.sourceByte (Sample.converted 576 768) 768 (1 * 4) (0 * 4) 1 ∧
    ((decimate (Sample.converted 576 768) 4 768 (Sample.sizedColour 144 192)).get 1 0).R =
        Sample.sourceByte (Sample.converted 576 768) 768 (1 * 4) (0 * 4) 2 :=
  (C20_offset_formula (Sample.converted 576 768) 4 768 (Sample.sizedColour 144 192) 1 0
    rfl (by decide) (by decide)).2.2.2 (by decide)


/-! ## The driver: what a failed call leaves behind -/

/-- The setter `setInput` ends the way `setInputRun` says. -/
theorem setInput_eq_run (d : vpIcCompGrabber) (k : Nat) :
    setInput d k =
      (match setInputRun d k with
       | (d1, none) => .ok d1
       | (_, some f) => .error f) := by
  unfold setInput setInputRun
  by_cases hk : k > 3
  · simp only [if_pos hk]
  · simp only [if_neg hk]
    cases hfg : d.framegrabber <;> simp [hfg]

/-- The setter `setScale` ends the way `setScaleRun` says. -/
theorem setScale_eq_run (d : vpIcCompGrabber) (s : Nat) :
    setScale d s =
      (match setScaleRun d s with
       | (d1, none) => .ok d1
       | (_, some f) => .error f) := by
  unfold setScale setScaleRun
  by_cases hs : s < 1 ∨ s > 16
  · simp only [if_pos hs]
  · simp only [if_neg hs]
    cases hfg : d.framegrabber <;> simp [hfg]

/-- Claim C21. For every driver state, `setInput(k)` with `k > 3` and
`setScale(s)` with `s < 1` or `s > 16` throw `settingError` and leave every
member of the driver as it was: `input`, `scale`, `framerate`, `init` and the
handle with its camera and decimation. Conversely a setter that ends with
`settingError` has left every member as it was. -/
theorem C21_rejected_setter_changes_nothing (d : vpIcCompGrabber) (k s : Nat) :
    (k > 3 → setInput d k = .error (.thrown .settingError) ∧
      setInputRun d k = (d, some (.thrown .settingError))) ∧
    ((s < 1 ∨ s > 16) → setScale d s = .error (.thrown .settingError) ∧
      setScaleRun d s = (d, some (.thrown .settingError))) ∧
    ((setInputRun d k).2 = some (.thrown .settingError) → (setInputRun d k).1 = d) ∧
    ((setScaleRun d s).2 = some (.thrown .settingError) → (setScaleRun d s).1 = d) := by
  refine ⟨fun hk => ⟨(setInput_settingError_iff d k).2 hk, ?_⟩,
    fun hs => ⟨(setScale_settingError_iff d s).2 hs, ?_⟩, ?_, ?_⟩
  · unfold setInputRun
    rw [if_pos hk]
  · unfold setScaleRun
    rw [if_pos hs]
  · unfold setInputRun
    by_cases hk : k > 3
    · rw [if_pos hk]
      exact fun _ => rfl
    · simp only [if_neg hk]
      cases hfg : d.framegrabber <;> simp [hfg]
  · unfold setScaleRun
    by_cases hs : s < 1 ∨ s > 16
    · rw [if_pos hs]
      exact fun _ => rfl
    · simp only [if_neg hs]
      cases hfg : d.framegrabber <;> simp [hfg]

/-- Claim C21 at concrete inputs: the driver `vpIcCompGrabber g(2, 2)` on the
sample board, then `g.setInput(4)`, `g.setScale(0)` and `g.setScale(17)`. -/
theorem C21_rejected_setter_changes_nothing_witness :
    setInputRun (Sample.built 576 768 2) 4 =
      (Sample.built 576 768 2, some (.thrown .settingError)) ∧
    setScaleRun (Sample.built 576 768 2) 0 =
      (Sample.built 576 768 2, some (.thrown .settingError)) ∧
    setScaleRun (Sample.built 576 768 2) 17 =
      (Sample.built 576 768 2, some (.thrown .settingError)) :=
  ⟨((C21_rejected_setter_changes_nothing (Sample.built 576 768 2) 4 0).1 (by decide)).2,
   ((C21_rejected_setter_changes_nothing (Sample.built 576 768 2) 4 0).2.1 (by decide)).2,
   ((C21_rejected_setter_changes_nothing (Sample.built 576 768 2) 4 17).2.1 (by decide)).2⟩


/-! ## Click queries without a backend -/

/-- Claim C23. With no backend attached, every click query of the dispatcher
(`getClick` in its three forms, `getClickUp`, `getClick_uv` in its two forms,
`getClickUp_uv`), blocking or not, on an image of either pixel type, returns
`false` without an exception and leaves the coordinate and button arguments of
the caller, and the image, as they were, whatever the backend class. -/
theorem C23_click_without_backend {α σ ε : Type} (D : Backend σ ε) (I : vpImage α σ)
    (hI : I.display = none) :
    (∀ i j blocking,
      getClick D I i j blocking = .ok ({ ret := false, i := i, j := j }, I)) ∧
    (∀ i j button blocking,
      getClickButton D I i j button blocking =
        .ok ({ ret := false, i := i, j := j, button := button }, I)) ∧
    (∀ blocking, getClickWait D I blocking = .ok (false, I)) ∧
    (∀ i j button blocking,
      getClickUp D I i j button blocking =
        .ok ({ ret := false, i := i, j := j, button := button }, I)) ∧
    (∀ u v blocking,
      getClick_uv D I u v blocking = .ok ({ ret := false, u := u, v := v }, I)) ∧
    (∀ u v button blocking,
      getClickButton_uv D I u v button blocking =
        .ok ({ ret := false, u := u, v := v, button := button }, I)) ∧
    (∀ u v button blocking,
      getClickUp_uv D I u v button blocking =
        .ok ({ ret := false, u := u, v := v, button := button }, I)) := by
  obtain ⟨h, w, b, disp⟩ := I
  dsimp only at hI
  subst hI
  exact ⟨fun _ _ _ => rfl, fun _ _ _ _ => rfl, fun _ => rfl, fun _ _ _ _ => rfl,
    fun _ _ _ => rfl, fun _ _ _ _ => rfl, fun _ _ _ _ => rfl⟩

/-- Claim C23 at concrete inputs: the colour and grey images without a display,
against the counting backend, whose own answers would be `true`, row 11,
column 22, or an exception. -/
theorem C23_click_without_backend_witness :
    getClick Sample.counting Sample.colourImage 5 6 false =
      .ok ({ ret := false, i := 5, j := 6 }, Sample.colourImage) ∧
    getClick_uv Sample.counting Sample.greyImage 5 6 true =
      .ok ({ ret := false, u := 5, v := 6 }, Sample.greyImage) ∧
    getClickUp_uv Sample.counting Sample.greyImage 5 6 1 true =
      .ok ({ ret := false, u := 5, v := 6, button := 1 }, Sample.greyImage) :=
  ⟨(C23_click_without_backend Sample.counting Sample.colourImage rfl).1 5 6 false,
   (C23_click_without_backend Sample.counting Sample.greyImage rfl).2.2.2.2.1 5 6 true,
   (C23_click_without_backend Sample.counting Sample.greyImage rfl).2.2.2.2.2.2 5 6 1 true⟩

/-! ## The alpha channel under the colour decimation -/

/-- The decimation keeps the `A` field of every element of the bitmap. -/
theorem decimate_A {δ : Type} (buf : Nat → Nat) (S W : Nat) (I : vpImage vpRGBa δ)
    (k : Nat) : ((decimate buf S W I).bitmap k).A = (I.bitmap k).A := by
  obtain ⟨-, -, -, h5, h6⟩ := decimateRows_spec buf S W I.getHeight 0 0 I
  unfold decimate
  by_cases hk : I.getHeight * I.width ≤ k
  · rw [h5 k (Or.inr (by rw [Nat.zero_add]; exact hk))]
  · have hk2 : k < I.getHeight * I.width := by omega
    have hw : 0 < I.width := by
      rcases Nat.eq_zero_or_pos I.width with h0 | hpos
      · rw [h0] at hk2
        simp at hk2
      · exact hpos
    have hq : k / I.width < I.getHeight := by
      rw [Nat.div_lt_iff_lt_mul hw]
      exact hk2
    have hc : k % I.width < I.width := Nat.mod_lt k hw
    have hsplit : (0 + k / I.width) * I.width + k % I.width = k := by
      rw [Nat.zero_add, Nat.mul_comm]
      exact Nat.div_add_mod k I.width
    have := h6 (k / I.width) (k % I.width) hq hc
    rw [hsplit] at this
    rw [this]
    rfl

/-- The colour `acquire` on a driver with a handle and `scale != 1`: the image
it leaves is the decimation run on the image as it is just before the loops. -/
theorem acquireRGBa_eq_decimate {δ : Type} (P : Platform) (d : vpIcCompGrabber)
    (fg : ICcomp2x) (I : vpImage vpRGBa δ) (hfg : d.framegrabber = some fg)
    (hs : d.scale ≠ 1) :
    acquireRGBa P d I =
      .ok ({ d with field := (fg.Acquire P).1.field, framegrabber := some (fg.Acquire P).2 },
           decimate
             (P.ConvertYCbCrToRGBA (fg.Acquire P).1.bitmap (P.GetHeight (fg.Acquire P).2)
               (P.GetWidth (fg.Acquire P).2))
             d.scale (P.GetWidth (fg.Acquire P).2)
             (if I.getWidth ≠ d.ncols ∨ I.getHeight ≠ d.nrows then
                I.resize P.freshRGBa d.nrows d.ncols
              else I)) := by
  unfold acquireRGBa
  simp only [hfg, if_neg hs]


/-- The decimation keeps the `A` field of every pixel. -/
theorem decimate_get_A {δ : Type} (buf : Nat → Nat) (S W : Nat) (I : vpImage vpRGBa δ)
    (i j : Nat) : ((decimate buf S W I).get i j).A = (I.get i j).A := by
  obtain ⟨-, h3, -⟩ := decimateRows_spec buf S W I.getHeight 0 0 I
  have hw : (decimate buf S W I).width = I.width := h3
  unfold vpImage.get
  rw [hw]
  exact decimate_A buf S W I _

/-- Claim C24. The decimation loop keeps the `A` field of every pixel, whatever
the buffer. So the colour `acquire` with `scale > 1`, on a driver with a handle,
returns an image in which every pixel has the `A` field it had just before the
loops (that is, after the resize when the size of the image was not
`(nrows, ncols)`): the caller's `A` when the image had the right size, the `A`
of the newly sized bitmap otherwise, for every converted buffer. -/
theorem C24_alpha_kept {δ : Type} (P : Platform) (d : vpIcCompGrabber) (fg : ICcomp2x)
    (I : vpImage vpRGBa δ) (hfg : d.framegrabber = some fg) (hs : 1 < d.scale) :
    (∀ (buf : Nat → Nat) (S W : Nat) (I0 : vpImage vpRGBa δ) (i j : Nat),
      ((decimate buf S W I0).get i j).A = (I0.get i j).A) ∧
    ∃ g J, acquireRGBa P d I = .ok (g, J) ∧
      (∀ i j, (J.get i j).A =
        ((if I.getWidth ≠ d.ncols ∨ I.getHeight ≠ d.nrows then
            I.resize P.freshRGBa d.nrows d.ncols
          else I).get i j).A) ∧
      (I.getWidth = d.ncols → I.getHeight = d.nrows →
        ∀ i j, (J.get i j).A = (I.get i j).A) ∧
      ((I.getWidth ≠ d.ncols ∨ I.getHeight ≠ d.nrows) →
        ∀ i j, (J.get i j).A = (P.freshRGBa (i * d.ncols + j)).A) := by
  refine ⟨fun buf S W I0 i j => decimate_get_A buf S W I0 i j, ?_⟩
  refine ⟨_, _, acquireRGBa_eq_decimate P d fg I hfg (by omega), ?_, ?_, ?_⟩
  · intro i j
    exact decimate_get_A _ _ _ _ i j
  · intro hw hh i j
    have hsz : ¬ (I.getWidth ≠ d.ncols ∨ I.getHeight ≠ d.nrows) := by
      rintro (h | h)
      · exact h hw
      · exact h hh
    rw [decimate_get_A, if_neg hsz]
  · intro hsz i j
    rw [decimate_get_A, if_pos hsz]
    rfl

/-- Claim C24 at a concrete input: the driver with scale 5 opened for a colour
image on the board of 576 rows and 768 columns, and an image of 115 rows and 153
columns whose pixels all have `A = 255`: after `acquire` every pixel still has
`A = 255`. -/
theorem C24_alpha_kept_witness :
    openRGBa (Sample.board 576 768) (Sample.built 576 768 5) Sample.colourImage =
      .ok (Sample.openedColour 576 768 5,
           Sample.colourImage.resize (Sample.board 576 768).freshRGBa (576 / 5) (768 / 5)) ∧
    ∃ g J, acquireRGBa (Sample.board 576 768) (Sample.openedColour 576 768 5)
        (Sample.sizedColour 115 153) = .ok (g, J) ∧
      ∀ i j, (J.get i j).A = 255 := by
  refine ⟨rfl, ?_⟩
  obtain ⟨-, g, J, h, -, hA, -⟩ := C24_alpha_kept (Sample.board 576 768)
    (Sample.openedColour 576 768 5) _ (Sample.sizedColour 115 153) rfl (by decide)
  exact ⟨g, J, h, fun i j => hA rfl rfl i j⟩


/-! ## The driver: the handle, `close` and `init` -/

/-- The colour `acquire` throws `initializationError` exactly on a `NULL` handle. -/
theorem acquireRGBa_initializationError_iff {δ : Type} (P : Platform)
    (d : vpIcCompGrabber) (I : vpImage vpRGBa δ) :
    acquireRGBa P d I = .error (.thrown .initializationError) ↔ d.framegrabber = none := by
  constructor
  · intro h
    cases hfg : d.framegrabber with
    | none => rfl
    | some fg =>
      obtain ⟨r, hr⟩ := acquireRGBa_of_handle P d fg I hfg
      rw [hr] at h
      cases h
  · intro h
    unfold acquireRGBa
    simp only [h]

/-- The grey `acquire` throws `initializationError` exactly on a `NULL` handle. -/
theorem acquireGrey_initializationError_iff {δ : Type} (P : Platform) (fuel : Nat)
    (d : vpIcCompGrabber) (I : vpImage Nat δ) :
    acquireGrey P fuel d I = some (.error (.thrown .initializationError)) ↔
      d.framegrabber = none := by
  constructor
  · intro h
    cases hfg : d.framegrabber with
    | none => rfl
    | some fg => exact absurd h (acquireGrey_ne_initializationError P fuel d fg I hfg)
  · intro h
    unfold acquireGrey
    simp only [h]

/-- The method `close` leaves a `NULL` handle and touches no other member. -/
theorem close_spec (d : vpIcCompGrabber) :
    vpIcCompGrabber.close d = { d with framegrabber := none } := by
  unfold vpIcCompGrabber.close
  cases hfg : d.framegrabber with
  | none =>
    cases d
    simp only at hfg
    subst hfg
    rfl
  | some fg => rfl

/-- One call: afterwards the handle is `NULL` exactly when it was `NULL` before
or the call was `close()`. -/
theorem step_handle {δ : Type} (P : Platform) (d d1 : vpIcCompGrabber) (c : Call δ)
    (h : step P d c = some d1) :
    d1.framegrabber = none ↔ (d.framegrabber = none ∨ c = .close) := by
  cases c with
  | setInput k =>
    unfold step setInputRun at h
    by_cases hk : k > 3
    · simp only [if_pos hk, Option.some.injEq] at h
      subst h
      simp
    · simp only [if_neg hk] at h
      cases hfg : d.framegrabber with
      | none => simp [hfg] at h
      | some fg =>
        simp only [hfg, Option.some.injEq] at h
        subst h
        simp
  | setScale s =>
    unfold step setScaleRun at h
    by_cases hs : s < 1 ∨ s > 16
    · simp only [if_pos hs, Option.some.injEq] at h
      subst h
      simp
    · simp only [if_neg hs] at h
      cases hfg : d.framegrabber with
      | none => simp [hfg] at h
      | some fg =>
        simp only [hfg, Option.some.injEq] at h
        subst h
        simp
  | setFramerate f =>
    simp only [step, Option.some.injEq] at h
    subst h
    simp [setFramerate]
  | getFramerate =>
    simp only [step, Option.some.injEq] at h
    subst h
    simp
  | getField =>
    simp only [step, Option.some.injEq] at h
    subst h
    simp
  | openGrey I =>
    cases hfg : d.framegrabber with
    | none => simp [step, openGrey, hfg] at h
    | some fg =>
      rw [step, openGrey_of_handle P d fg I hfg] at h
      simp only [Option.some.injEq] at h
      subst h
      simp
  | openRGBa I =>
    cases hfg : d.framegrabber with
    | none => simp [step, openRGBa, hfg] at h
    | some fg =>
      rw [step, openRGBa_of_handle P d fg I hfg] at h
      simp only [Option.some.injEq] at h
      subst h
      simp
  | acquireGrey fuel I =>
    cases hfg : d.framegrabber with
    | none =>
      have hacq := (acquireGrey_initializationError_iff P fuel d I).2 hfg
      rw [step, hacq] at h
      simp only [Option.some.injEq] at h
      subst h
      simp [hfg]
    | some fg =>
      rcases acquireGrey_of_handle P fuel d fg I hfg with h0 | ⟨r, hr⟩
      · rw [step, h0] at h
        cases h
      · rw [step, hr] at h
        simp only [Option.some.injEq] at h
        subst h
        have hr2 := hr
        unfold acquireGrey at hr2
        simp only [hfg] at hr2
        split at hr2
        · cases hr2
        · simp only [Option.some.injEq, Except.ok.injEq] at hr2
          rw [← hr2]
          simp
  | acquireRGBa I =>
    cases hfg : d.framegrabber with
    | none =>
      have hacq := (acquireRGBa_initializationError_iff P d I).2 hfg
      rw [step, hacq] at h
      simp only [Option.some.injEq] at h
      subst h
      simp [hfg]
    | some fg =>
      obtain ⟨r, hr⟩ := acquireRGBa_of_handle P d fg I hfg
      rw [step, hr] at h
      simp only [Option.some.injEq] at h
      subst h
      have hr2 := hr
      unfold acquireRGBa at hr2
      simp only [hfg] at hr2
      split at hr2
      · simp only [Except.ok.injEq] at hr2
        rw [← hr2]
        simp
      · simp only [Except.ok.injEq] at hr2
        rw [← hr2]
        simp
  | close =>
    simp only [step, Option.some.injEq] at h
    subst h
    simp [close_spec]


/-- A sequence of calls: afterwards the handle is `NULL` exactly when it was
`NULL` before or one of the calls was `close()`. -/
theorem run_handle {δ : Type} (P : Platform) :
    ∀ (calls : List (Call δ)) (d d1 : vpIcCompGrabber), run P d calls = some d1 →
      (d1.framegrabber = none ↔ (d.framegrabber = none ∨ Call.close ∈ calls)) := by
  intro calls
  induction calls with
  | nil =>
    intro d d1 h
    simp only [run, Option.some.injEq] at h
    subst h
    simp
  | cons c cs ih =>
    intro d d1 h
    rw [run] at h
    cases hstep : step P d c with
    | none =>
      rw [hstep] at h
      cases h
    | some d2 =>
      rw [hstep] at h
      rw [ih d2 d1 h, step_handle P d d2 c hstep, List.mem_cons]
      constructor
      · rintro ((h1 | h1) | h1)
        · exact Or.inl h1
        · exact Or.inr (Or.inl h1.symm)
        · exact Or.inr (Or.inr h1)
      · rintro (h1 | h1 | h1)
        · exact Or.inl (Or.inl h1)
        · exact Or.inl (Or.inr h1.symm)
        · exact Or.inr h1

/-- The colour `acquire` does not read `init`. -/
theorem acquireRGBa_init {δ : Type} (P : Platform) (d : vpIcCompGrabber)
    (I : vpImage vpRGBa δ) (b : Bool) :
    acquireRGBa P { d with init := b } I =
      (acquireRGBa P d I).map (fun r => ({ r.1 with init := b }, r.2)) := by
  unfold acquireRGBa
  cases hfg : d.framegrabber with
  | none => rfl
  | some fg =>
    simp only []
    split <;> rfl

/-- The grey `acquire` does not read `init`. -/
theorem acquireGrey_init {δ : Type} (P : Platform) (fuel : Nat) (d : vpIcCompGrabber)
    (I : vpImage Nat δ) (b : Bool) :
    acquireGrey P fuel { d with init := b } I =
      (acquireGrey P fuel d I).map (Except.map (fun r => ({ r.1 with init := b }, r.2))) := by
  unfold acquireGrey
  cases hfg : d.framegrabber with
  | none => rfl
  | some fg =>
    simp only []
    split <;> rfl

/-- Every constructor that returns leaves a handle that is not `NULL`. -/
theorem constructors_handle {δ : Type} (P : Platform) (raw : vpIcCompGrabber)
    (_input _scale : Nat) (Ig : vpImage Nat δ) (Ic : vpImage vpRGBa δ) :
    (∀ d, mk0 P raw = .ok d → d.framegrabber ≠ none) ∧
    (∀ d, mk2 P raw _input _scale = .ok d → d.framegrabber ≠ none) ∧
    (∀ d I, mkGrey P raw Ig _input _scale = .ok (d, I) → d.framegrabber ≠ none) ∧
    (∀ d I, mkRGBa P raw Ic _input _scale = .ok (d, I) → d.framegrabber ≠ none) := by
  have hmk2 : ∀ (i s : Nat) d, mk2 P raw i s = .ok d → d.framegrabber ≠ none := by
    intro i s d h
    by_cases hv : i > 3 ∨ s < 1 ∨ s > 16
    · rw [(mk2_settingError_iff P raw i s).2 hv] at h
      cases h
    · rw [mk2_of_valid P raw i s (by omega) (by omega) (by omega)] at h
      simp only [Except.ok.injEq] at h
      subst h
      simp
  refine ⟨fun d h => hmk2 2 2 d h, hmk2 _input _scale, ?_, ?_⟩
  · intro d I h
    unfold mkGrey at h
    simp only [] at h
    by_cases hi : _input > 3
    · rw [(setInput_settingError_iff _ _input).2 hi] at h
      cases h
    · rw [setInput_of_handle _ P.fresh _input rfl (by omega)] at h
      simp only [bind, Except.bind] at h
      by_cases hs : _scale < 1 ∨ _scale > 16
      · rw [(setScale_settingError_iff _ _scale).2 hs] at h
        cases h
      · rw [setScale_of_handle _ (P.fresh.SetCamera _input) _scale rfl (by omega)
          (by omega)] at h
        simp only [] at h
        rw [openGrey_of_handle P _ ((P.fresh.SetCamera _input).SetDecimation _scale) Ig
          rfl] at h
        simp only [Except.ok.injEq, Prod.mk.injEq] at h
        rw [← h.1]
        simp
  · intro d I h
    unfold mkRGBa at h
    simp only [] at h
    by_cases hi : _input > 3
    · rw [(setInput_settingError_iff _ _input).2 hi] at h
      cases h
    · rw [setInput_of_handle _ P.fresh _input rfl (by omega)] at h
      simp only [bind, Except.bind] at h
      by_cases hs : _scale < 1 ∨ _scale > 16
      · rw [(setScale_settingError_iff _ _scale).2 hs] at h
        cases h
      · rw [setScale_of_handle _ (P.fresh.SetCamera _input) _scale rfl (by omega)
          (by omega)] at h
        simp only [] at h
        rw [openRGBa_of_handle P _ ((P.fresh.SetCamera _input).SetDecimation _scale) Ic
          rfl] at h
        simp only [Except.ok.injEq, Prod.mk.injEq] at h
        rw [← h.1]
        simp


/-- Claim C22. For every driver state and both pixel types, `acquire()` throws
`initializationError` exactly when the handle is `NULL`. `close()` leaves the
handle `NULL`, and for a driver returned by any of the four constructors and
used through any sequence of calls of its methods, the handle is `NULL` exactly
when one of the calls was `close()`. What `acquire()` does is the same for both
values of `init`, and `close()` leaves `init` as it was. -/
theorem C22_acquire_and_handle {δ : Type} (P : Platform) (d : vpIcCompGrabber)
    (Ic : vpImage vpRGBa δ) (Ig : vpImage Nat δ) (fuel : Nat) :
    (acquireRGBa P d Ic = .error (.thrown .initializationError) ↔ d.framegrabber = none) ∧
    (acquireGrey P fuel d Ig = some (.error (.thrown .initializationError)) ↔
      d.framegrabber = none) ∧
    (vpIcCompGrabber.close d).framegrabber = none ∧
    (∀ raw d0 d1 (calls : List (Call δ)), mk0 P raw = .ok d0 → run P d0 calls = some d1 →
      (d1.framegrabber = none ↔ Call.close ∈ calls)) ∧
    (∀ raw i s d0 d1 (calls : List (Call δ)), mk2 P raw i s = .ok d0 →
      run P d0 calls = some d1 → (d1.framegrabber = none ↔ Call.close ∈ calls)) ∧
    (∀ raw i s (I I0 : vpImage Nat δ) d0 d1 (calls : List (Call δ)),
      mkGrey P raw I i s = .ok (d0, I0) →
      run P d0 calls = some d1 → (d1.framegrabber = none ↔ Call.close ∈ calls)) ∧
    (∀ raw i s (I I0 : vpImage vpRGBa δ) d0 d1 (calls : List (Call δ)),
      mkRGBa P raw I i s = .ok (d0, I0) →
      run P d0 calls = some d1 → (d1.framegrabber = none ↔ Call.close ∈ calls)) ∧
    (∀ b, acquireRGBa P { d with init := b } Ic =
      (acquireRGBa P d Ic).map (fun r => ({ r.1 with init := b }, r.2))) ∧
    (∀ b, acquireGrey P fuel { d with init := b } Ig =
      (acquireGrey P fuel d Ig).map
        (Except.map (fun r => ({ r.1 with init := b }, r.2)))) ∧
    (vpIcCompGrabber.close d).init = d.init := by
  have hrun : ∀ (d0 d1 : vpIcCompGrabber) (calls : List (Call δ)),
      d0.framegrabber ≠ none → run P d0 calls = some d1 →
      (d1.framegrabber = none ↔ Call.close ∈ calls) := by
    intro d0 d1 calls h0 h
    rw [run_handle P calls d0 d1 h]
    exact ⟨fun hc => hc.resolve_left h0, fun hc => Or.inr hc⟩
  refine ⟨acquireRGBa_initializationError_iff P d Ic,
    acquireGrey_initializationError_iff P fuel d Ig, ?_, ?_, ?_, ?_, ?_,
    acquireRGBa_init P d Ic, acquireGrey_init P fuel d Ig, ?_⟩
  · rw [close_spec]
  · intro raw d0 d1 calls h0 h
    exact hrun d0 d1 calls ((constructors_handle P raw 0 0 Ig Ic).1 d0 h0) h
  · intro raw i s d0 d1 calls h0 h
    exact hrun d0 d1 calls ((constructors_handle P raw i s Ig Ic).2.1 d0 h0) h
  · intro raw i s I I0 d0 d1 calls h0 h
    exact hrun d0 d1 calls ((constructors_handle P raw i s I Ic).2.2.1 d0 I0 h0) h
  · intro raw i s I I0 d0 d1 calls h0 h
    exact hrun d0 d1 calls ((constructors_handle P raw i s Ig I).2.2.2 d0 I0 h0) h
  · rw [close_spec]

/-- Claim C22 at concrete inputs: `vpIcCompGrabber g(2, 2)` on the sample board.
After `g.open(I); g.acquire(I); g.close();` for a grey image the handle is
`NULL`, `init` is still `true`, and `acquire()` throws `initializationError`;
after `g.open(I); g.acquire(I);` alone the handle is not `NULL`. -/
theorem C22_acquire_and_handle_witness :
    (∃ d1, run (Sample.board 576 768) (Sample.built 576 768 2)
        [Call.openGrey Sample.greyImage, Call.acquireGrey 0 Sample.greyImage, Call.close] =
          some d1 ∧
      d1.framegrabber = none ∧ d1.init = true ∧
      acquireGrey (Sample.board 576 768) 0 d1 Sample.greyImage =
        some (.error (.thrown .initializationError)) ∧
      acquireRGBa (Sample.board 576 768) d1 Sample.colourImage =
        .error (.thrown .initializationError)) ∧
    (∃ d1, run (Sample.board 576 768) (Sample.built 576 768 2)
        [Call.openGrey Sample.greyImage, Call.acquireGrey 0 Sample.greyImage] = some d1 ∧
      d1.framegrabber ≠ none) := by
  constructor
  · refine ⟨_, rfl, ?_⟩
    have hnull := ((C22_acquire_and_handle (Sample.board 576 768) (Sample.built 576 768 2)
      Sample.colourImage Sample.greyImage 0).2.2.2.2.1 Sample.rawMembers 2 2
      (Sample.built 576 768 2) _
      [Call.openGrey Sample.greyImage, Call.acquireGrey 0 Sample.greyImage, Call.close]
      rfl rfl).2 (by simp)
    refine ⟨hnull, rfl, ?_, ?_⟩
    · exact (C22_acquire_and_handle (Sample.board 576 768) _ Sample.colourImage
        Sample.greyImage 0).2.1.2 hnull
    · exact (C22_acquire_and_handle (Sample.board 576 768) _ Sample.colourImage
        Sample.greyImage 0).1.2 hnull
  · refine ⟨_, rfl, ?_⟩
    intro hnull
    have hmem := ((C22_acquire_and_handle (Sample.board 576 768) (Sample.built 576 768 2)
      Sample.colourImage Sample.greyImage 0).2.2.2.2.1 Sample.rawMembers 2 2
      (Sample.built 576 768 2) _
      [Call.openGrey Sample.greyImage, Call.acquireGrey 0 Sample.greyImage]
      rfl rfl).1 hnull
    simp at hmem

end ViSP
